import Mathlib

/-
  Verification development for the measurement extraction, validation,
  correction and reclassification engine of the APIII repository.

  Shallow embedding: Python floats are modelled as rationals (the code only
  adds, multiplies, divides and compares, so exact rational arithmetic mirrors
  the branch structure); Python "None or a number" values are Option Rat;
  dictionaries with a fixed key set are structures.
-/

namespace BodyCorrection

/- Model of measurement_modules/body_correction.py, class AnthropometricBodyValidator. -/

/-- Provenance tag stored in the per-measurement "source" field. -/
inductive Source where
  | original
  | corrected
  | estimated
deriving DecidableEq, Repr

/-- Value together with its provenance, the dict with keys "value" and "source". -/
structure Entry where
  value : ℚ
  source : Source
deriving DecidableEq, Repr

/-- Gender tag returned by detect_gender. -/
inductive Gender where
  | female
  | male
deriving DecidableEq, Repr

/-- Embedding of clamp_to_range: max(min_val, min(value, max_val)). -/
def clamp_to_range (value min_val max_val : ℚ) : ℚ :=
  max min_val (min value max_val)

/-- Keys of the height_ratios table of AnthropometricBodyValidator. -/
inductive RatioKey where
  | head_circumference
  | neck_circumference
  | chest_circumference
  | waist_circumference
  | hip_circumference
  | arm_length
  | leg_length
  | foot_length
  | shoulder_breadth
deriving DecidableEq, Repr

/-- The height_ratios table: (min, max) as a fraction of height. -/
def height_ratios : RatioKey → ℚ × ℚ
  | .head_circumference => (33/100, 38/100)
  | .neck_circumference => (20/100, 25/100)
  | .chest_circumference => (50/100, 65/100)
  | .waist_circumference => (38/100, 50/100)
  | .hip_circumference => (45/100, 60/100)
  | .arm_length => (32/100, 36/100)
  | .leg_length => (44/100, 52/100)
  | .foot_length => (14/100, 16/100)
  | .shoulder_breadth => (22/100, 28/100)

/-- Embedding of detect_gender.  The code reads the waist and hip keys with a
default of 0 for a missing key, so the arguments here are the defaulted
values. -/
def detect_gender (waist hip : ℚ) : Gender :=
  if 0 < waist ∧ 0 < hip then
    if waist / hip < 82/100 then .female else .male
  else .female

/-- Embedding of process_measurement_with_height_ratio for the nine call
sites whose ratio_key is present in height_ratios (every call site of the
source passes such a key, so the missing-key fallback branch of the source is
dead code and is not modelled). -/
def process_measurement_with_height_ratio (detected : Option ℚ) (height : ℚ)
    (ratio_key : RatioKey) : Entry :=
  let r := height_ratios ratio_key
  let min_val := height * r.1
  let max_val := height * r.2
  let estimated_value := height * ((r.1 + r.2) / 2)
  match detected with
  | none => ⟨estimated_value, .estimated⟩
  | some d =>
    if d ≤ 0 then ⟨estimated_value, .estimated⟩
    else if min_val ≤ d ∧ d ≤ max_val then ⟨d, .original⟩
    else ⟨clamp_to_range d min_val max_val, .corrected⟩

/-- Embedding of process_waist_measurement: clamp to the height band, then to
70 to 90 percent of chest, and keep the detected value when the change is
below the 1 cm tolerance. -/
def process_waist_measurement (detected : Option ℚ) (height chest_value : ℚ) : Entry :=
  let min_val := height * (38/100)
  let max_val := height * (50/100)
  let estimated_value := height * ((38/100 + 50/100) / 2)
  match detected with
  | none => ⟨estimated_value, .estimated⟩
  | some d =>
    if d ≤ 0 then ⟨estimated_value, .estimated⟩
    else
      let clamped_waist := clamp_to_range d min_val max_val
      let max_waist_from_chest := chest_value * (90/100)
      let min_waist_from_chest := chest_value * (70/100)
      let final_waist := clamp_to_range clamped_waist min_waist_from_chest max_waist_from_chest
      if |final_waist - d| < 1 then ⟨d, .original⟩
      else ⟨final_waist, .corrected⟩

/-- Embedding of process_hip_measurement: clamp to the height band, then to
100 to 130 percent of waist, with the same 1 cm keep tolerance. -/
def process_hip_measurement (detected : Option ℚ) (height waist_value : ℚ) : Entry :=
  let min_val := height * (45/100)
  let max_val := height * (60/100)
  let estimated_value := height * ((45/100 + 60/100) / 2)
  match detected with
  | none => ⟨estimated_value, .estimated⟩
  | some d =>
    if d ≤ 0 then ⟨estimated_value, .estimated⟩
    else
      let clamped_hip := clamp_to_range d min_val max_val
      let min_hip_from_waist := waist_value * 1
      let max_hip_from_waist := waist_value * (130/100)
      let final_hip := clamp_to_range clamped_hip min_hip_from_waist max_hip_from_waist
      if |final_hip - d| < 1 then ⟨d, .original⟩
      else ⟨final_hip, .corrected⟩

/-- Embedding of process_weight: BMI 22 estimate when missing, keep when BMI
is in 16 to 32, otherwise a 60/40 blend.  At height 0 the source raises
ZeroDivisionError; rational division by zero yields 0 here, and no claim
touches that point. -/
def process_weight (detected : Option ℚ) (height : ℚ) : Entry :=
  let height_m := height / 100
  let estimated_weight := 22 * height_m ^ 2
  match detected with
  | none => ⟨estimated_weight, .estimated⟩
  | some d =>
    if d ≤ 0 then ⟨estimated_weight, .estimated⟩
    else
      let bmi := d / height_m ^ 2
      if 16 ≤ bmi ∧ bmi ≤ 32 then ⟨d, .original⟩
      else ⟨d * (60/100) + estimated_weight * (40/100), .corrected⟩

/-- Embedding of process_wrist_measurement with the gender specific absolute
ranges (13,17) for female and (15,20) for male. -/
def process_wrist_measurement (detected : Option ℚ) (gender : Gender) : Entry :=
  let r : ℚ × ℚ := match gender with
    | .female => (13, 17)
    | .male => (15, 20)
  let estimated_value := (r.1 + r.2) / 2
  match detected with
  | none => ⟨estimated_value, .estimated⟩
  | some d =>
    if d ≤ 0 then ⟨estimated_value, .estimated⟩
    else if r.1 ≤ d ∧ d ≤ r.2 then ⟨d, .original⟩
    else ⟨clamp_to_range d r.1 r.2, .corrected⟩

/-- The parsed raw measurements consumed by process_all_measurements; none is
a missing or non numeric entry. -/
structure RawBody where
  weight : Option ℚ
  head : Option ℚ
  neck : Option ℚ
  chest : Option ℚ
  waist : Option ℚ
  hips : Option ℚ
  arm : Option ℚ
  leg : Option ℚ
  foot : Option ℚ
  wrist : Option ℚ
  shoulder : Option ℚ
deriving DecidableEq, Repr

/-- The corrected_data dictionary built by process_all_measurements, in the
insertion order of the source. -/
structure CorrectedBody where
  height : Entry
  weight : Entry
  head : Entry
  neck : Entry
  chest : Entry
  waist : Entry
  hips : Entry
  arm : Entry
  leg : Entry
  foot : Entry
  wrist : Entry
  shoulder : Entry
deriving DecidableEq, Repr

/-- Embedding of process_all_measurements.  Height is stored with source
original; waist is processed against the already corrected chest value and
hips against the corrected waist value, exactly as in the source. -/
def process_all_measurements (m : RawBody) (height : ℚ) (gender : Gender) : CorrectedBody :=
  let chest := process_measurement_with_height_ratio m.chest height .chest_circumference
  let waist := process_waist_measurement m.waist height chest.value
  let hips := process_hip_measurement m.hips height waist.value
  { height := ⟨height, .original⟩
    weight := process_weight m.weight height
    head := process_measurement_with_height_ratio m.head height .head_circumference
    neck := process_measurement_with_height_ratio m.neck height .neck_circumference
    chest := chest
    waist := waist
    hips := hips
    arm := process_measurement_with_height_ratio m.arm height .arm_length
    leg := process_measurement_with_height_ratio m.leg height .leg_length
    foot := process_measurement_with_height_ratio m.foot height .foot_length
    wrist := process_wrist_measurement m.wrist gender
    shoulder := process_measurement_with_height_ratio m.shoulder height .shoulder_breadth }

/-- The chest, waist and hip portion of process_all_measurements, the three
measurements tied together by the relationship clamps. -/
structure TripleOut where
  chest : Entry
  waist : Entry
  hips : Entry
deriving DecidableEq, Repr

/-- Chest, waist and hip processing in dependency order, as performed inside
process_all_measurements. -/
def validate_triple (dc dw dp : Option ℚ) (height : ℚ) : TripleOut :=
  let chest := process_measurement_with_height_ratio dc height .chest_circumference
  let waist := process_waist_measurement dw height chest.value
  let hips := process_hip_measurement dp height waist.value
  ⟨chest, waist, hips⟩

/-- Sources of a corrected set, in the iteration order of corrected_data. -/
def sources_of (c : CorrectedBody) : List Source :=
  [c.height.source, c.weight.source, c.head.source, c.neck.source, c.chest.source,
   c.waist.source, c.hips.source, c.arm.source, c.leg.source, c.foot.source,
   c.wrist.source, c.shoulder.source]

/-- Embedding of calculate_confidence_score on the list of sources of the
corrected data: counts per provenance, weighted sum over the total, clamped
into 0 to 100. -/
def calculate_confidence_score (sources : List Source) : ℚ :=
  let total : ℚ := sources.length
  let original_count : ℚ := sources.countP (fun s => s = Source.original)
  let corrected_count : ℚ := sources.countP (fun s => s = Source.corrected)
  let estimated_count : ℚ := sources.countP (fun s => s = Source.estimated)
  let confidence := (original_count * 100 + corrected_count * 70 + estimated_count * 40) / total
  min 100 (max 0 confidence)

/-- Base score of a single provenance tag, as in the comment and the weighted
sum of calculate_confidence_score. -/
def base_confidence : Source → ℚ
  | .original => 100
  | .corrected => 70
  | .estimated => 40

/-- Embedding of calculate_range_distance, including the special case that an
overshoot above an open ended range (max 999) costs nothing. -/
def calculate_range_distance (value : ℚ) (r : ℚ × ℚ) : ℚ :=
  if r.1 ≤ value ∧ value ≤ r.2 then 0
  else if value < r.1 then r.1 - value
  else if r.2 = 999 then 0
  else value - r.2

/-- One row of a clothing size chart: label plus chest, waist and hip range. -/
structure SizeRow where
  label : String
  chest : ℚ × ℚ
  waist : ℚ × ℚ
  hip : ℚ × ℚ
deriving DecidableEq, Repr

/-- The female_sizes chart, in dict insertion order (smallest first). -/
def female_sizes : List SizeRow :=
  [⟨"XS", (76, 83), (60, 67), (84, 91)⟩,
   ⟨"S", (84, 92), (68, 75), (92, 99)⟩,
   ⟨"M", (93, 101), (76, 83), (100, 107)⟩,
   ⟨"L", (102, 110), (84, 91), (108, 115)⟩,
   ⟨"XL", (111, 119), (92, 99), (116, 123)⟩,
   ⟨"XXL", (120, 128), (100, 107), (124, 131)⟩,
   ⟨"XXXL", (129, 137), (108, 115), (132, 139)⟩,
   ⟨"XXXXL", (138, 999), (116, 999), (140, 999)⟩]

/-- The male_sizes chart, in dict insertion order (smallest first). -/
def male_sizes : List SizeRow :=
  [⟨"XS", (86, 91), (71, 76), (86, 91)⟩,
   ⟨"S", (91, 96), (76, 81), (91, 96)⟩,
   ⟨"M", (96, 101), (81, 86), (96, 101)⟩,
   ⟨"L", (101, 106), (86, 91), (101, 106)⟩,
   ⟨"XL", (106, 111), (91, 96), (106, 111)⟩,
   ⟨"XXL", (111, 116), (96, 101), (111, 116)⟩,
   ⟨"XXXL", (116, 121), (101, 106), (116, 121)⟩,
   ⟨"XXXXL", (121, 999), (106, 999), (121, 999)⟩]

/-- Chest 40, waist 35, hip 25 percent weighted distance of a measurement
triple to one chart row. -/
def size_distance (chest waist hip : ℚ) (row : SizeRow) : ℚ :=
  calculate_range_distance chest row.chest * (4/10)
    + calculate_range_distance waist row.waist * (35/100)
    + calculate_range_distance hip row.hip * (25/100)

end BodyCorrection

namespace RunMin

/- The running minimum fold shared by every classifier in the repository:
min_distance starts at infinity (modelled as none), best starts at a default
label, and each row replaces the pair only on a strictly smaller distance. -/

variable {α β : Type}

/-- Fold of the classifier loops: strict improvement replaces the
accumulator, so the first row attaining the minimum wins. -/
def run_min (d : α → ℚ) (lab : α → β) : List α → Option ℚ × β → Option ℚ × β
  | [], acc => acc
  | row :: rest, (none, _) => run_min d lab rest (some (d row), lab row)
  | row :: rest, (some m, best) =>
    if d row < m then run_min d lab rest (some (d row), lab row)
    else run_min d lab rest (some m, best)

theorem run_min_no_improve (d : α → ℚ) (lab : α → β) (l : List α) (m : ℚ) (best : β)
    (h : ∀ row ∈ l, ¬ d row < m) : run_min d lab l (some m, best) = (some m, best) := by
  induction l with
  | nil => rfl
  | cons row rest ih =>
    have hrow : ¬ d row < m := h row (List.mem_cons_self row rest)
    simp only [run_min, if_neg hrow]
    exact ih fun r hr => h r (List.mem_cons_of_mem row hr)

/-- The fold selects the first row attaining the overall minimum: if every
row before x is strictly farther and no row after x is strictly nearer, the
result is the distance and label of x (provided the accumulator does not
already beat x). -/
theorem run_min_first_min (d : α → ℚ) (lab : α → β) (l₁ : List α) (x : α) (l₂ : List α) :
    ∀ acc : Option ℚ × β, (∀ y ∈ l₁, d x < d y) → (∀ y ∈ l₂, ¬ d y < d x) →
    (∀ m, acc.1 = some m → d x < m) →
    run_min d lab (l₁ ++ x :: l₂) acc = (some (d x), lab x) := by
  induction l₁ with
  | nil =>
    intro acc _ h₂ hacc
    obtain ⟨m?, best⟩ := acc
    match m? with
    | none =>
      simp only [List.nil_append, run_min]
      exact run_min_no_improve d lab l₂ (d x) (lab x) h₂
    | some m =>
      have hx : d x < m := hacc m rfl
      simp only [List.nil_append, run_min, if_pos hx]
      exact run_min_no_improve d lab l₂ (d x) (lab x) h₂
  | cons y l₁ ih =>
    intro acc h₁ h₂ hacc
    have hy : d x < d y := h₁ y (List.mem_cons_self y l₁)
    have h₁' : ∀ z ∈ l₁, d x < d z := fun z hz => h₁ z (List.mem_cons_of_mem y hz)
    obtain ⟨m?, best⟩ := acc
    match m? with
    | none =>
      simp only [List.cons_append, run_min]
      exact ih (some (d y), lab y) h₁' h₂ (by rintro m ⟨rfl⟩; exact hy)
    | some m =>
      have hm : d x < m := hacc m rfl
      simp only [List.cons_append, run_min]
      by_cases hcase : d y < m
      · rw [if_pos hcase]
        exact ih (some (d y), lab y) h₁' h₂ (by rintro m' ⟨rfl⟩; exact hy)
      · rw [if_neg hcase]
        exact ih (some m, best) h₁' h₂ (by rintro m' ⟨rfl⟩; exact hm)

end RunMin

namespace BodyCorrection

/-- Chart selection of classify_clothing_size: female_sizes if the detected
gender is female, otherwise male_sizes. -/
def gender_chart : Gender → List SizeRow
  | .female => female_sizes
  | .male => male_sizes

/-- Embedding of classify_clothing_size: running minimum of the weighted
distance over the gender chart, Unknown when the best distance reaches 15. -/
def classify_clothing_size (chest waist hip : ℚ) (gender : Gender) : String :=
  match RunMin.run_min (size_distance chest waist hip) SizeRow.label
      (gender_chart gender) (none, "Unknown") with
  | (none, _) => "Unknown"
  | (some m, best) => if m < 15 then best else "Unknown"

end BodyCorrection

namespace BodyCorrection

lemma le_clamp_left (v lo hi : ℚ) : lo ≤ clamp_to_range v lo hi :=
  le_max_left lo (min v hi)

lemma clamp_le_right (v lo hi : ℚ) (h : lo ≤ hi) : clamp_to_range v lo hi ≤ hi :=
  max_le h (min_le_right v hi)

lemma clamp_of_mem (v lo hi : ℚ) (h₁ : lo ≤ v) (h₂ : v ≤ hi) : clamp_to_range v lo hi = v := by
  unfold clamp_to_range
  rw [min_eq_left h₂, max_eq_right h₁]

lemma clamp_of_lt_left (v lo hi : ℚ) (h : lo ≤ hi) (hv : v < lo) :
    clamp_to_range v lo hi = lo := by
  unfold clamp_to_range
  rw [min_eq_left (le_trans hv.le h), max_eq_left hv.le]

lemma clamp_of_ge_right (v lo hi : ℚ) (h : lo ≤ hi) (hv : hi ≤ v) :
    clamp_to_range v lo hi = hi := by
  unfold clamp_to_range
  rw [min_eq_right hv, max_eq_right h]

lemma clamp_of_gt_right (v lo hi : ℚ) (h : lo ≤ hi) (hv : hi < v) :
    clamp_to_range v lo hi = hi :=
  clamp_of_ge_right v lo hi h hv.le

lemma clamp_ge_of_le_min (v lo hi b : ℚ) (h1 : b ≤ v) (h2 : b ≤ hi) :
    b ≤ clamp_to_range v lo hi :=
  le_trans (le_min h1 h2) (le_max_right lo (min v hi))

lemma clamp_le_of_les (v lo hi b : ℚ) (h1 : lo ≤ b) (h2 : v ≤ b) :
    clamp_to_range v lo hi ≤ b :=
  max_le h1 (le_trans (min_le_left v hi) h2)

@[simp] lemma entry_value_mk (v : ℚ) (s : Source) : (Entry.mk v s).value = v := rfl

@[simp] lemma entry_source_mk (v : ℚ) (s : Source) : (Entry.mk v s).source = s := rfl

@[simp] lemma validate_triple_chest (dc dw dp : Option ℚ) (h : ℚ) :
    (validate_triple dc dw dp h).chest =
      process_measurement_with_height_ratio dc h .chest_circumference := rfl

@[simp] lemma validate_triple_waist (dc dw dp : Option ℚ) (h : ℚ) :
    (validate_triple dc dw dp h).waist =
      process_waist_measurement dw h
        (process_measurement_with_height_ratio dc h .chest_circumference).value := rfl

@[simp] lemma validate_triple_hips (dc dw dp : Option ℚ) (h : ℚ) :
    (validate_triple dc dw dp h).hips =
      process_hip_measurement dp h
        (process_waist_measurement dw h
          (process_measurement_with_height_ratio dc h .chest_circumference).value).value := rfl

/-- The corrected chest value always lies in the chest height band, for any
detected value or none at all. -/
lemma chest_value_bounds (d : Option ℚ) (h : ℚ) (hh : (0:ℚ) ≤ h) :
    h * (50/100) ≤ (process_measurement_with_height_ratio d h .chest_circumference).value ∧
    (process_measurement_with_height_ratio d h .chest_circumference).value ≤ h * (65/100) := by
  have hband : h * (50/100) ≤ h * (65/100) := by nlinarith
  cases d with
  | none =>
    simp only [process_measurement_with_height_ratio, height_ratios]
    constructor <;> nlinarith
  | some dval =>
    simp only [process_measurement_with_height_ratio, height_ratios]
    split_ifs with h0 hin
    · constructor <;> nlinarith
    · exact ⟨hin.1, hin.2⟩
    · exact ⟨le_clamp_left _ _ _, clamp_le_right _ _ _ hband⟩

/-- The processed waist value is strictly below the chest value it was
clamped against (when the chest value is itself in its band and the height is
at least 20 cm, so that the 1 cm keep tolerance cannot bridge the 10 percent
headroom), and it never exceeds half the height by 1 cm or more. -/
lemma waist_facts (dw : Option ℚ) (h c : ℚ) (hh : (20:ℚ) ≤ h)
    (hc1 : h * (50/100) ≤ c) (hc2 : c ≤ h * (65/100)) :
    (process_waist_measurement dw h c).value < c ∧
    (process_waist_measurement dw h c).value < h * (50/100) + 1 := by
  have hc10 : (10:ℚ) ≤ c := by nlinarith
  have hband : h * (38/100) ≤ h * (50/100) := by nlinarith
  have hcband : c * (70/100) ≤ c * (90/100) := by nlinarith
  cases dw with
  | none =>
    simp only [process_waist_measurement]
    constructor <;> nlinarith
  | some d =>
    simp only [process_waist_measurement]
    split_ifs with h0 habs
    · constructor <;> nlinarith
    · -- detected value kept: it is within 1 cm of the doubly clamped value
      have h1 : clamp_to_range d (h * (38/100)) (h * (50/100)) ≤ h * (50/100) :=
        clamp_le_right _ _ _ hband
      have h2 : clamp_to_range (clamp_to_range d (h * (38/100)) (h * (50/100)))
          (c * (70/100)) (c * (90/100)) ≤ c * (90/100) := clamp_le_right _ _ _ hcband
      have h3 : clamp_to_range (clamp_to_range d (h * (38/100)) (h * (50/100)))
          (c * (70/100)) (c * (90/100)) ≤
          max (c * (70/100)) (clamp_to_range d (h * (38/100)) (h * (50/100))) :=
        max_le_max (le_refl _) (min_le_left _ _)
      have h4 : max (c * (70/100)) (clamp_to_range d (h * (38/100)) (h * (50/100)))
          ≤ h * (50/100) := max_le (by nlinarith) h1
      rw [abs_lt] at habs
      constructor <;> simp only [Entry.value] <;> nlinarith [habs.1, habs.2]
    · have h1 : clamp_to_range d (h * (38/100)) (h * (50/100)) ≤ h * (50/100) :=
        clamp_le_right _ _ _ hband
      have h2 : clamp_to_range (clamp_to_range d (h * (38/100)) (h * (50/100)))
          (c * (70/100)) (c * (90/100)) ≤ c * (90/100) := clamp_le_right _ _ _ hcband
      have h3 : clamp_to_range (clamp_to_range d (h * (38/100)) (h * (50/100)))
          (c * (70/100)) (c * (90/100)) ≤
          max (c * (70/100)) (clamp_to_range d (h * (38/100)) (h * (50/100))) :=
        max_le_max (le_refl _) (min_le_left _ _)
      have h4 : max (c * (70/100)) (clamp_to_range d (h * (38/100)) (h * (50/100)))
          ≤ h * (50/100) := max_le (by nlinarith) h1
      constructor <;> simp only [Entry.value] <;> nlinarith

/-- The processed hip value is never a full centimeter below the waist value
it was clamped against, provided the waist value is below half the height
plus one (which waist_facts guarantees). -/
lemma hip_gt_waist_sub_one (dp : Option ℚ) (h w : ℚ) (hh : (0:ℚ) < h)
    (hw : w < h * (50/100) + 1) :
    w - 1 < (process_hip_measurement dp h w).value := by
  cases dp with
  | none =>
    simp only [process_hip_measurement]
    nlinarith
  | some d =>
    simp only [process_hip_measurement]
    split_ifs with h0 habs
    · nlinarith
    · have h1 : w * 1 ≤ clamp_to_range (clamp_to_range d (h * (45/100)) (h * (60/100)))
          (w * 1) (w * (130/100)) := le_clamp_left _ _ _
      rw [abs_lt] at habs
      simp only [Entry.value]
      nlinarith [habs.1]
    · have h1 : w * 1 ≤ clamp_to_range (clamp_to_range d (h * (45/100)) (h * (60/100)))
          (w * 1) (w * (130/100)) := le_clamp_left _ _ _
      simp only [Entry.value]
      nlinarith

/-- Claim C1, counterexample.  At height 170 cm with detected chest 100,
waist 77 and hip 76.6, every value is kept unchanged with source original
because each is within the 1 cm keep tolerance of its clamped value, and the
returned set violates waist_cm < hip_cm: waist 77, hip 76.6. -/
theorem claim1_counterexample :
    (validate_triple (some 100) (some 77) (some (383/5)) 170).waist.value = 77 ∧
    (validate_triple (some 100) (some 77) (some (383/5)) 170).hips.value = 383/5 ∧
    (validate_triple (some 100) (some 77) (some (383/5)) 170).waist.source = .original ∧
    (validate_triple (some 100) (some 77) (some (383/5)) 170).hips.source = .original ∧
    ¬ ((validate_triple (some 100) (some 77) (some (383/5)) 170).waist.value
        < (validate_triple (some 100) (some 77) (some (383/5)) 170).hips.value) := by
  norm_num [validate_triple, process_waist_measurement, process_hip_measurement,
    process_measurement_with_height_ratio, height_ratios, clamp_to_range, abs_lt]

/-- Claim C1, amended.  For heights of at least 20 cm the body validator
guarantees waist_cm < chest_cm, but for hips only the tolerance weakened
bound hip_cm > waist_cm - 1: the 1 cm keep tolerance of
process_hip_measurement can leave the returned hip strictly below the waist
by up to 1 cm, so the strict invariant waist_cm < hip_cm of the claim does
not hold. -/
theorem claim1_amended_theorem (h : ℚ) (dc dw dp : Option ℚ) (hh : (20:ℚ) ≤ h) :
    (validate_triple dc dw dp h).waist.value < (validate_triple dc dw dp h).chest.value ∧
    (validate_triple dc dw dp h).waist.value - 1 < (validate_triple dc dw dp h).hips.value := by
  have h0 : (0:ℚ) ≤ h := by linarith
  obtain ⟨hc1, hc2⟩ := chest_value_bounds dc h h0
  obtain ⟨hw1, hw2⟩ := waist_facts dw h
    (process_measurement_with_height_ratio dc h .chest_circumference).value hh hc1 hc2
  have hp := hip_gt_waist_sub_one dp h
    (process_waist_measurement dw h
      (process_measurement_with_height_ratio dc h .chest_circumference).value).value
    (by linarith) hw2
  simp only [validate_triple_chest, validate_triple_waist, validate_triple_hips]
  exact ⟨hw1, hp⟩

/-- Claim C1, witness for the amended theorem at height 170 with detected
chest 100, waist 77 and hip 90. -/
theorem claim1_witness :
    (20:ℚ) ≤ 170 ∧
    ((validate_triple (some 100) (some 77) (some 90) 170).waist.value
        < (validate_triple (some 100) (some 77) (some 90) 170).chest.value ∧
     (validate_triple (some 100) (some 77) (some 90) 170).waist.value - 1
        < (validate_triple (some 100) (some 77) (some 90) 170).hips.value) :=
  ⟨by norm_num, claim1_amended_theorem 170 (some 100) (some 77) (some 90) (by norm_num)⟩

/-- The raw measurement set in which every entry is missing. -/
def raw_missing : RawBody :=
  ⟨none, none, none, none, none, none, none, none, none, none, none⟩

/-- Claim C6, counterexample.  With every raw measurement missing at height
170, the returned set contains the height entry with source original, not
estimated, so the set does not consist solely of estimated ratio midpoints. -/
theorem claim6_counterexample :
    (process_all_measurements raw_missing 170 .female).height = ⟨170, .original⟩ ∧
    (process_all_measurements raw_missing 170 .female).height.source ≠ .estimated ∧
    (process_all_measurements raw_missing 170 .female).weight =
      ⟨22 * (170/100) ^ 2, .estimated⟩ := by
  refine ⟨rfl, by decide, ?_⟩
  norm_num [process_all_measurements, process_weight, raw_missing]

/-- Claim C6, amended.  For every height H in the band 90 to 220 and all raw
measurements missing, each of the nine ratio table measurements is returned
with source estimated and value exactly H times the midpoint of its band; the
height entry however keeps source original, the weight is estimated from BMI
22 rather than a height ratio, and the wrist is estimated as the midpoint 15
of the female absolute range. -/
theorem claim6_amended_theorem (H : ℚ) (_h1 : (90:ℚ) ≤ H) (_h2 : H ≤ 220) :
    (process_all_measurements raw_missing H .female).head =
      ⟨H * ((33/100 + 38/100) / 2), .estimated⟩ ∧
    (process_all_measurements raw_missing H .female).neck =
      ⟨H * ((20/100 + 25/100) / 2), .estimated⟩ ∧
    (process_all_measurements raw_missing H .female).chest =
      ⟨H * ((50/100 + 65/100) / 2), .estimated⟩ ∧
    (process_all_measurements raw_missing H .female).waist =
      ⟨H * ((38/100 + 50/100) / 2), .estimated⟩ ∧
    (process_all_measurements raw_missing H .female).hips =
      ⟨H * ((45/100 + 60/100) / 2), .estimated⟩ ∧
    (process_all_measurements raw_missing H .female).arm =
      ⟨H * ((32/100 + 36/100) / 2), .estimated⟩ ∧
    (process_all_measurements raw_missing H .female).leg =
      ⟨H * ((44/100 + 52/100) / 2), .estimated⟩ ∧
    (process_all_measurements raw_missing H .female).foot =
      ⟨H * ((14/100 + 16/100) / 2), .estimated⟩ ∧
    (process_all_measurements raw_missing H .female).shoulder =
      ⟨H * ((22/100 + 28/100) / 2), .estimated⟩ ∧
    (process_all_measurements raw_missing H .female).height = ⟨H, .original⟩ ∧
    (process_all_measurements raw_missing H .female).weight =
      ⟨22 * (H/100) ^ 2, .estimated⟩ ∧
    (process_all_measurements raw_missing H .female).wrist = ⟨15, .estimated⟩ ∧
    detect_gender 0 0 = .female := by
  refine ⟨rfl, rfl, rfl, rfl, rfl, rfl, rfl, rfl, rfl, rfl, rfl, ?_, by decide⟩
  norm_num [process_all_measurements, process_wrist_measurement, raw_missing]

/-- Claim C6, witness at height 170. -/
theorem claim6_witness :
    (90:ℚ) ≤ 155 ∧ (155:ℚ) ≤ 220 ∧
    ((process_all_measurements raw_missing 155 .female).waist =
      ⟨155 * ((38/100 + 50/100) / 2), .estimated⟩ ∧
     (process_all_measurements raw_missing 155 .female).height = ⟨155, .original⟩) :=
  ⟨by norm_num, by norm_num,
    (claim6_amended_theorem 155 (by norm_num) (by norm_num)).2.2.2.1,
    (claim6_amended_theorem 155 (by norm_num) (by norm_num)).2.2.2.2.2.2.2.2.2.1⟩

/-- Sum of the per measurement base scores expressed through the three
provenance counts used by calculate_confidence_score. -/
lemma base_confidence_sum (l : List Source) :
    (l.map base_confidence).sum =
      (l.countP (fun s => s = Source.original) : ℚ) * 100 +
      (l.countP (fun s => s = Source.corrected) : ℚ) * 70 +
      (l.countP (fun s => s = Source.estimated) : ℚ) * 40 := by
  induction l with
  | nil => simp
  | cons s t ih =>
    cases s <;>
      simp only [List.map_cons, List.sum_cons, List.countP_cons, ih, base_confidence] <;>
      norm_num <;> push_cast <;> ring

lemma base_confidence_le (s : Source) : base_confidence s ≤ 100 := by
  cases s <;> norm_num [base_confidence]

lemma base_confidence_ge (s : Source) : 40 ≤ base_confidence s := by
  cases s <;> norm_num [base_confidence]

lemma base_confidence_sum_le (l : List Source) :
    (l.map base_confidence).sum ≤ 100 * l.length := by
  induction l with
  | nil => simp
  | cons s t ih =>
    simp only [List.map_cons, List.sum_cons, List.length_cons]
    push_cast
    have := base_confidence_le s
    linarith

lemma base_confidence_sum_ge (l : List Source) :
    40 * (l.length : ℚ) ≤ (l.map base_confidence).sum := by
  induction l with
  | nil => simp
  | cons s t ih =>
    simp only [List.map_cons, List.sum_cons, List.length_cons]
    push_cast
    have := base_confidence_ge s
    linarith

lemma base_confidence_sum_all_estimated (l : List Source)
    (hall : ∀ s ∈ l, s = Source.estimated) :
    (l.map base_confidence).sum = 40 * (l.length : ℚ) := by
  induction l with
  | nil => simp
  | cons s t ih =>
    have hs : s = Source.estimated := hall s (List.mem_cons_self s t)
    have ht : ∀ x ∈ t, x = Source.estimated := fun x hx => hall x (List.mem_cons_of_mem s hx)
    subst hs
    simp only [List.map_cons, List.sum_cons, List.length_cons, ih ht, base_confidence]
    push_cast
    ring

/-- Claim C4, counterexample.  On a set in which every one of the twelve
measurements is estimated, the confidence score is 40, not 60: the clamp in
the source is min 100 (max 0 x), so there is no floor at 60. -/
theorem claim4_counterexample :
    calculate_confidence_score (List.replicate 12 .estimated) = 40 ∧
    calculate_confidence_score (List.replicate 12 .estimated) ≠ 60 := by
  have h1 : (List.replicate 12 Source.estimated).countP (fun s => s = Source.original) = 0 := by
    decide
  have h2 : (List.replicate 12 Source.estimated).countP (fun s => s = Source.corrected) = 0 := by
    decide
  have h3 : (List.replicate 12 Source.estimated).countP (fun s => s = Source.estimated) = 12 := by
    decide
  have h4 : (List.replicate 12 Source.estimated).length = 12 := by decide
  rw [calculate_confidence_score] at *
  simp only [h1, h2, h3, h4]
  norm_num

/-- Claim C4, amended.  The base score of a measurement is determined only by
its provenance (original 100, corrected 70, estimated 40) and the overall
confidence is exactly the arithmetic mean of the per measurement base scores;
the mean is clamped into 0 to 100, not floored at 60, so an all estimated set
yields 40. -/
theorem claim4_amended_theorem (l : List Source) (hne : l ≠ []) :
    calculate_confidence_score l = (l.map base_confidence).sum / l.length ∧
    ((∀ s ∈ l, s = Source.estimated) → calculate_confidence_score l = 40) := by
  have hlen : (0:ℚ) < l.length := by
    have := List.length_pos.mpr hne
    exact_mod_cast this
  have hmean_le : (l.map base_confidence).sum / l.length ≤ 100 := by
    rw [div_le_iff₀ hlen]
    have := base_confidence_sum_le l
    linarith
  have hmean_ge : (0:ℚ) ≤ (l.map base_confidence).sum / l.length := by
    apply div_nonneg _ hlen.le
    have := base_confidence_sum_ge l
    nlinarith
  have hmain : calculate_confidence_score l = (l.map base_confidence).sum / l.length := by
    simp only [calculate_confidence_score]
    rw [← base_confidence_sum]
    rw [max_eq_right hmean_ge, min_eq_right hmean_le]
  refine ⟨hmain, fun hall => ?_⟩
  rw [hmain, base_confidence_sum_all_estimated l hall]
  field_simp

/-- Claim C4, witness on a two element list with one original and one
corrected measurement: the score is the mean 85. -/
theorem claim4_witness :
    ([Source.original, Source.corrected] ≠ []) ∧
    (calculate_confidence_score [Source.original, Source.corrected] =
      ([Source.original, Source.corrected].map base_confidence).sum /
        ([Source.original, Source.corrected].length) ∧
     ((∀ s ∈ [Source.original, Source.corrected], s = Source.estimated) →
      calculate_confidence_score [Source.original, Source.corrected] = 40)) :=
  ⟨by decide, claim4_amended_theorem [Source.original, Source.corrected] (by decide)⟩

/-- Claim C7, confirmed.  Whenever the gender chart splits into rows strictly
farther than x, then x, then rows no nearer than x (so x is the first row
attaining the minimal weighted distance, ties with later rows allowed), and
the minimal distance is below the 15 cm ceiling, the classifier returns the
label of x.  Since the charts are listed smallest size first, a tie between
two sizes resolves to the smaller one. -/
theorem claim7_theorem (chest waist hip : ℚ) (gender : Gender)
    (l₁ : List SizeRow) (x : SizeRow) (l₂ : List SizeRow)
    (hsplit : gender_chart gender = l₁ ++ x :: l₂)
    (hbefore : ∀ y ∈ l₁, size_distance chest waist hip x < size_distance chest waist hip y)
    (hafter : ∀ y ∈ l₂, ¬ size_distance chest waist hip y < size_distance chest waist hip x)
    (hthresh : size_distance chest waist hip x < 15) :
    classify_clothing_size chest waist hip gender = x.label := by
  unfold classify_clothing_size
  rw [hsplit,
    RunMin.run_min_first_min (size_distance chest waist hip) SizeRow.label l₁ x l₂
      (none, "Unknown") hbefore hafter (by intro m hm; simp at hm)]
  exact if_pos hthresh

/-- Claim C7, witness: at chest 83.5, waist 67.5 and hip 91.5 the sizes XS
and S of the female chart tie at weighted distance one half, every other size
is strictly farther, and the classifier returns XS, the smaller of the two. -/
theorem claim7_witness :
    size_distance (167/2) (135/2) (183/2) ⟨"XS", (76, 83), (60, 67), (84, 91)⟩ =
      size_distance (167/2) (135/2) (183/2) ⟨"S", (84, 92), (68, 75), (92, 99)⟩ ∧
    classify_clothing_size (167/2) (135/2) (183/2) .female = "XS" := by
  constructor
  · norm_num [size_distance, calculate_range_distance]
  · exact claim7_theorem (167/2) (135/2) (183/2) .female []
      ⟨"XS", (76, 83), (60, 67), (84, 91)⟩
      [⟨"S", (84, 92), (68, 75), (92, 99)⟩,
       ⟨"M", (93, 101), (76, 83), (100, 107)⟩,
       ⟨"L", (102, 110), (84, 91), (108, 115)⟩,
       ⟨"XL", (111, 119), (92, 99), (116, 123)⟩,
       ⟨"XXL", (120, 128), (100, 107), (124, 131)⟩,
       ⟨"XXXL", (129, 137), (108, 115), (132, 139)⟩,
       ⟨"XXXXL", (138, 999), (116, 999), (140, 999)⟩]
      rfl
      (by intro y hy; simp at hy)
      (by
        intro y hy
        fin_cases hy <;> norm_num [size_distance, calculate_range_distance])
      (by norm_num [size_distance, calculate_range_distance])

end BodyCorrection

namespace MeasurementValidator

/- Model of measurement_modules/measurement_validator.py, class
MeasurementValidator.  The height is an instance field of the class; here it
is an explicit argument. -/

/-- The ratios table of setup_anthropometric_ratios. -/
def ratios : List (String × ℚ × ℚ) :=
  [("head_circumference", 31/100, 37/100),
   ("neck_circumference", 20/100, 25/100),
   ("chest_circumference", 50/100, 65/100),
   ("waist_circumference", 38/100, 50/100),
   ("hip_circumference", 50/100, 65/100),
   ("shoulder_breadth", 23/100, 28/100),
   ("arm_length", 43/100, 47/100),
   ("upper_arm_circumference", 15/100, 22/100),
   ("forearm_circumference", 13/100, 18/100),
   ("wrist_circumference", 9/100, 11/100),
   ("thigh_circumference", 28/100, 38/100),
   ("calf_circumference", 19/100, 25/100),
   ("ankle_circumference", 12/100, 15/100),
   ("inseam", 43/100, 47/100),
   ("foot_length", 14/100, 16/100),
   ("foot_width", 5/100, 7/100)]

/-- Dictionary lookup in the ratios table. -/
def lookup_ratio (name : String) : Option (ℚ × ℚ) :=
  (ratios.find? (fun p => p.1 == name)).map Prod.snd

/-- Embedding of MeasurementValidator.validate_measurement: inside the band
the value is valid and kept; outside the band the value is replaced by the
band midpoint height times (min_ratio + max_ratio) / 2. -/
def validate_measurement (height : ℚ) (name : String) (value : ℚ) : Bool × ℚ :=
  match lookup_ratio name with
  | some r =>
    if height * r.1 ≤ value ∧ value ≤ height * r.2 then (true, value)
    else (false, height * (r.1 + r.2) / 2)
  | none => (true, value)

end MeasurementValidator

/-- Claim C2, counterexample.  At height 170, a detected chest circumference
of 120 cm lies above the chest band 85 to 110.5; MeasurementValidator
replaces it with the band midpoint 97.75, not with the nearest bound 110.5,
so the clamping policy of the claim does not hold for this validator. -/
theorem claim2_counterexample :
    MeasurementValidator.validate_measurement 170 "chest_circumference" 120 =
      (false, 391/4) ∧
    (391/4 : ℚ) ≠ 170 * (65/100) := by
  constructor
  · have hlook : MeasurementValidator.lookup_ratio "chest_circumference" =
        some (50/100, 65/100) := by rfl
    simp only [MeasurementValidator.validate_measurement, hlook]
    norm_num
  · norm_num

/-- Claim C2, amended.  In AnthropometricBodyValidator a present out of band
measurement is clamped to the nearest band bound with source corrected, as
the claim states; in MeasurementValidator.validate_measurement, however, a
present out of band value is replaced by the band midpoint, not the nearest
bound. -/
theorem claim2_amended_theorem (h d : ℚ) (key : BodyCorrection.RatioKey)
    (hh : (0:ℚ) ≤ h) (hd : (0:ℚ) < d) :
    (d < h * (BodyCorrection.height_ratios key).1 →
      BodyCorrection.process_measurement_with_height_ratio (some d) h key =
        ⟨h * (BodyCorrection.height_ratios key).1, .corrected⟩) ∧
    (h * (BodyCorrection.height_ratios key).2 < d →
      BodyCorrection.process_measurement_with_height_ratio (some d) h key =
        ⟨h * (BodyCorrection.height_ratios key).2, .corrected⟩) ∧
    (∀ name r, MeasurementValidator.lookup_ratio name = some r →
      (d < h * r.1 ∨ h * r.2 < d) →
      MeasurementValidator.validate_measurement h name d = (false, h * (r.1 + r.2) / 2)) := by
  have hr : (BodyCorrection.height_ratios key).1 ≤ (BodyCorrection.height_ratios key).2 := by
    cases key <;> norm_num [BodyCorrection.height_ratios]
  have hband : h * (BodyCorrection.height_ratios key).1 ≤
      h * (BodyCorrection.height_ratios key).2 := by nlinarith
  refine ⟨fun hlow => ?_, fun hhigh => ?_, fun name r hlook hout => ?_⟩
  · simp only [BodyCorrection.process_measurement_with_height_ratio]
    rw [if_neg (not_le.mpr hd), if_neg (fun hc => absurd hc.1 (not_le.mpr hlow)),
      BodyCorrection.clamp_of_lt_left d _ _ hband hlow]
  · simp only [BodyCorrection.process_measurement_with_height_ratio]
    rw [if_neg (not_le.mpr hd), if_neg (fun hc => absurd hc.2 (not_le.mpr hhigh)),
      BodyCorrection.clamp_of_gt_right d _ _ hband hhigh]
  · simp only [MeasurementValidator.validate_measurement, hlook]
    rw [if_neg]
    rintro ⟨hc1, hc2⟩
    rcases hout with hlow | hhigh
    · exact absurd hc1 (not_le.mpr hlow)
    · exact absurd hc2 (not_le.mpr hhigh)

namespace BodyCorrection

/-- Rerunning the ratio band processing on a value already inside the band
returns it unchanged with source original. -/
lemma ratio_idem (h v : ℚ) (key : RatioKey) (h0 : (0:ℚ) < v)
    (h1 : h * (height_ratios key).1 ≤ v) (h2 : v ≤ h * (height_ratios key).2) :
    process_measurement_with_height_ratio (some v) h key = ⟨v, .original⟩ := by
  simp only [process_measurement_with_height_ratio]
  rw [if_neg (not_le.mpr h0), if_pos ⟨h1, h2⟩]

/-- The processed waist value is positive and below half the height plus the
1 cm keep tolerance whenever the chest value it is clamped against lies in
the chest band. -/
lemma waist_value_bounds (dw : Option ℚ) (h c : ℚ) (hh : (0:ℚ) < h)
    (hc1 : h * (50/100) ≤ c) (hc2 : c ≤ h * (65/100)) :
    0 < (process_waist_measurement dw h c).value ∧
    (process_waist_measurement dw h c).value < h * (50/100) + 1 := by
  have hband : h * (38/100) ≤ h * (50/100) := by nlinarith
  have hcband : c * (70/100) ≤ c * (90/100) := by nlinarith
  cases dw with
  | none =>
    simp only [process_waist_measurement]
    constructor <;> nlinarith
  | some d =>
    simp only [process_waist_measurement]
    split_ifs with h0 habs
    · constructor <;> nlinarith
    · rw [abs_lt] at habs
      push_neg at h0
      constructor <;> simp only [entry_value_mk]
      · exact h0
      · have h1 : clamp_to_range d (h * (38/100)) (h * (50/100)) ≤ h * (50/100) :=
          clamp_le_right _ _ _ hband
        have h2 : clamp_to_range (clamp_to_range d (h * (38/100)) (h * (50/100)))
            (c * (70/100)) (c * (90/100)) ≤ h * (50/100) :=
          clamp_le_of_les _ _ _ _ (by nlinarith) h1
        nlinarith [habs.2]
    · have h1 : clamp_to_range d (h * (38/100)) (h * (50/100)) ≤ h * (50/100) :=
        clamp_le_right _ _ _ hband
      have h2 : clamp_to_range (clamp_to_range d (h * (38/100)) (h * (50/100)))
          (c * (70/100)) (c * (90/100)) ≤ h * (50/100) :=
        clamp_le_of_les _ _ _ _ (by nlinarith) h1
      have h3 : h * (38/100) ≤ clamp_to_range (clamp_to_range d (h * (38/100)) (h * (50/100)))
          (c * (70/100)) (c * (90/100)) :=
        clamp_ge_of_le_min _ _ _ _ (le_clamp_left _ _ _) (by nlinarith)
      constructor <;> simp only [entry_value_mk] <;> nlinarith

/-- Rerunning the waist processing on its own output, against the same chest
value, reproduces the value exactly with source original. -/
lemma waist_idem (h c d : ℚ) (hh : (10:ℚ) ≤ h) (hc1 : h * (50/100) ≤ c)
    (hc2 : c ≤ h * (65/100)) (hd : (0:ℚ) < d) :
    process_waist_measurement (some (process_waist_measurement (some d) h c).value) h c =
      ⟨(process_waist_measurement (some d) h c).value, .original⟩ := by
  have hband : h * (38/100) ≤ h * (50/100) := by nlinarith
  have hcband : c * (70/100) ≤ c * (90/100) := by nlinarith
  set B := clamp_to_range d (h * (38/100)) (h * (50/100)) with hBdef
  set F := clamp_to_range B (c * (70/100)) (c * (90/100)) with hFdef
  have hB1 : h * (38/100) ≤ B := le_clamp_left _ _ _
  have hB2 : B ≤ h * (50/100) := clamp_le_right _ _ _ hband
  have hF1 : c * (70/100) ≤ F := le_clamp_left _ _ _
  have hF2 : F ≤ c * (90/100) := clamp_le_right _ _ _ hcband
  have hF3 : h * (38/100) ≤ F := clamp_ge_of_le_min _ _ _ _ hB1 (by nlinarith)
  have hF4 : F ≤ h * (50/100) := clamp_le_of_les _ _ _ _ (by nlinarith) hB2
  have hF0 : (0:ℚ) < F := by nlinarith
  have hrun1 : process_waist_measurement (some d) h c =
      if |F - d| < 1 then ⟨d, .original⟩ else ⟨F, .corrected⟩ := by
    simp only [process_waist_measurement]
    rw [if_neg (not_le.mpr hd), ← hBdef, ← hFdef]
  rw [hrun1]
  by_cases habs : |F - d| < 1
  · rw [if_pos habs]
    show process_waist_measurement (some d) h c = ⟨d, .original⟩
    rw [hrun1, if_pos habs]
  · rw [if_neg habs]
    show process_waist_measurement (some F) h c = ⟨F, .original⟩
    simp only [process_waist_measurement]
    rw [if_neg (not_le.mpr hF0), clamp_of_mem F _ _ hF3 hF4, clamp_of_mem F _ _ hF1 hF2,
      if_pos (by rw [sub_self, abs_zero]; norm_num)]

/-- Rerunning the hip processing on its own output, against the same waist
value, reproduces the value exactly with source original. -/
lemma hip_idem (h w d : ℚ) (hh : (10:ℚ) ≤ h) (hw0 : (0:ℚ) < w)
    (hwle : w < h * (50/100) + 1) (hd : (0:ℚ) < d) :
    process_hip_measurement (some (process_hip_measurement (some d) h w).value) h w =
      ⟨(process_hip_measurement (some d) h w).value, .original⟩ := by
  have hband : h * (45/100) ≤ h * (60/100) := by nlinarith
  have hwband : w * 1 ≤ w * (130/100) := by nlinarith
  set A := clamp_to_range d (h * (45/100)) (h * (60/100)) with hAdef
  set P := clamp_to_range A (w * 1) (w * (130/100)) with hPdef
  have hA1 : h * (45/100) ≤ A := le_clamp_left _ _ _
  have hA2 : A ≤ h * (60/100) := clamp_le_right _ _ _ hband
  have hP1 : w * 1 ≤ P := le_clamp_left _ _ _
  have hP2 : P ≤ w * (130/100) := clamp_le_right _ _ _ hwband
  have hPle : P ≤ h * (60/100) := clamp_le_of_les _ _ _ _ (by nlinarith) hA2
  have hP0 : (0:ℚ) < P := by nlinarith
  have hrun1 : process_hip_measurement (some d) h w =
      if |P - d| < 1 then ⟨d, .original⟩ else ⟨P, .corrected⟩ := by
    simp only [process_hip_measurement]
    rw [if_neg (not_le.mpr hd), ← hAdef, ← hPdef]
  rw [hrun1]
  by_cases habs : |P - d| < 1
  · rw [if_pos habs]
    show process_hip_measurement (some d) h w = ⟨d, .original⟩
    rw [hrun1, if_pos habs]
  · rw [if_neg habs]
    show process_hip_measurement (some P) h w = ⟨P, .original⟩
    simp only [process_hip_measurement]
    rw [if_neg (not_le.mpr hP0)]
    by_cases hcase : h * (45/100) ≤ P
    · rw [clamp_of_mem P _ _ hcase hPle, clamp_of_mem P _ _ hP1 hP2,
        if_pos (by rw [sub_self, abs_zero]; norm_num)]
    · push_neg at hcase
      have hwA : w * (130/100) ≤ A := by
        by_contra hA
        push_neg at hA
        have hPA : A ≤ P := by
          rw [hPdef]
          exact le_trans (le_of_eq (min_eq_left hA.le).symm) (le_max_right _ _)
        nlinarith
      have hPval : P = w * (130/100) := by
        rw [hPdef, hAdef] at *
        rw [hPdef]
        rw [clamp_of_ge_right A _ _ hwband hwA]
      rw [clamp_of_lt_left P _ _ hband hcase]
      have hmin : min (h * (45/100)) (w * (130/100)) = w * (130/100) := by
        rw [min_eq_right]
        rw [hPval] at hcase
        exact hcase.le
      have hclamp2 : clamp_to_range (h * (45/100)) (w * 1) (w * (130/100)) = P := by
        unfold clamp_to_range
        rw [hmin, max_eq_right hwband, hPval]
      rw [hclamp2, if_pos (by rw [sub_self, abs_zero]; norm_num)]

/-- Claim C9, counterexample.  At height 170 with detected chest 110, hip 95
and a missing waist, the first run estimates the waist at the band midpoint
74.8; rerunning the validator on the produced values turns that waist into
77 with source corrected (the chest relationship clamp 0.70 times 110), so a
second run does not reproduce the output and records a further correction. -/
theorem claim9_counterexample :
    validate_triple (some 110) none (some 95) 170 =
      ⟨⟨110, .original⟩, ⟨374/5, .estimated⟩, ⟨95, .original⟩⟩ ∧
    (validate_triple (some 110) (some (374/5)) (some 95) 170).waist = ⟨77, .corrected⟩ ∧
    (77:ℚ) ≠ 374/5 := by
  refine ⟨?_, ?_, by norm_num⟩
  · norm_num [validate_triple, process_measurement_with_height_ratio,
      process_waist_measurement, process_hip_measurement, height_ratios,
      clamp_to_range, abs_lt]
  · norm_num [validate_triple, process_measurement_with_height_ratio,
      process_waist_measurement, height_ratios, clamp_to_range, abs_lt]

/-- Claim C9, amended.  When every raw measurement of the chest, waist, hip
triple is present (positive) and the height is at least 10 cm, the validator
is idempotent on its own output: a second run reproduces exactly the same
three values, records no further correction, and every source is original.
When a measurement was missing, its estimated band midpoint can be corrected
further by the second run (see the counterexample), so idempotence fails for
estimated values. -/
theorem claim9_amended_theorem (h dc dw dp : ℚ) (hh : (10:ℚ) ≤ h)
    (_hdc : (0:ℚ) < dc) (hdw : (0:ℚ) < dw) (hdp : (0:ℚ) < dp) :
    validate_triple (some (validate_triple (some dc) (some dw) (some dp) h).chest.value)
        (some (validate_triple (some dc) (some dw) (some dp) h).waist.value)
        (some (validate_triple (some dc) (some dw) (some dp) h).hips.value) h =
      ⟨⟨(validate_triple (some dc) (some dw) (some dp) h).chest.value, .original⟩,
       ⟨(validate_triple (some dc) (some dw) (some dp) h).waist.value, .original⟩,
       ⟨(validate_triple (some dc) (some dw) (some dp) h).hips.value, .original⟩⟩ := by
  have h0 : (0:ℚ) < h := by linarith
  obtain ⟨hc1, hc2⟩ := chest_value_bounds (some dc) h h0.le
  set c := (process_measurement_with_height_ratio (some dc) h .chest_circumference).value
    with hcdef
  have hc0 : (0:ℚ) < c := by nlinarith
  obtain ⟨hw0, hwle⟩ := waist_value_bounds (some dw) h c h0 hc1 hc2
  set w := (process_waist_measurement (some dw) h c).value with hwdef
  have echest : process_measurement_with_height_ratio (some c) h .chest_circumference =
      ⟨c, .original⟩ := ratio_idem h c .chest_circumference hc0 hc1 hc2
  have ewaist : process_waist_measurement (some w) h c = ⟨w, .original⟩ := by
    rw [hwdef]
    exact waist_idem h c dw hh hc1 hc2 hdw
  have ehip : process_hip_measurement
      (some (process_hip_measurement (some dp) h w).value) h w =
      ⟨(process_hip_measurement (some dp) h w).value, .original⟩ :=
    hip_idem h w dp hh hw0 hwle hdp
  simp only [validate_triple, validate_triple_chest, validate_triple_waist,
    validate_triple_hips, ← hcdef, ← hwdef, echest, ewaist, entry_value_mk, ehip]

/-- Claim C9, witness at height 170 with detected chest 100, waist 80 and
hip 95: the second run reproduces the first run values with sources
original. -/
theorem claim9_witness :
    (10:ℚ) ≤ 170 ∧ (0:ℚ) < 100 ∧ (0:ℚ) < 80 ∧ (0:ℚ) < 95 ∧
    validate_triple (some (validate_triple (some 100) (some 80) (some 95) 170).chest.value)
        (some (validate_triple (some 100) (some 80) (some 95) 170).waist.value)
        (some (validate_triple (some 100) (some 80) (some 95) 170).hips.value) 170 =
      ⟨⟨(validate_triple (some 100) (some 80) (some 95) 170).chest.value, .original⟩,
       ⟨(validate_triple (some 100) (some 80) (some 95) 170).waist.value, .original⟩,
       ⟨(validate_triple (some 100) (some 80) (some 95) 170).hips.value, .original⟩⟩ :=
  ⟨by norm_num, by norm_num, by norm_num, by norm_num,
    claim9_amended_theorem 170 100 80 95 (by norm_num) (by norm_num) (by norm_num) (by norm_num)⟩

end BodyCorrection

/-- Claim C2, witness at height 170 and detected value 120: in the body
validator the chest value 120 is clamped down to the upper bound 110.5 with
source corrected, while MeasurementValidator sends it to the midpoint. -/
theorem claim2_witness :
    (0:ℚ) ≤ 170 ∧ (0:ℚ) < 120 ∧
    (170 * ((BodyCorrection.height_ratios .chest_circumference).2) < 120 ∧
     BodyCorrection.process_measurement_with_height_ratio (some 120) 170 .chest_circumference =
       ⟨170 * ((BodyCorrection.height_ratios .chest_circumference).2), .corrected⟩) ∧
    MeasurementValidator.validate_measurement 170 "chest_circumference" 120 =
      (false, 170 * (50/100 + 65/100) / 2) := by
  have hmain := claim2_amended_theorem 170 120 .chest_circumference (by norm_num) (by norm_num)
  have hband : (170:ℚ) * ((BodyCorrection.height_ratios .chest_circumference).2) < 120 := by
    norm_num [BodyCorrection.height_ratios]
  refine ⟨by norm_num, by norm_num, ⟨hband, hmain.2.1 hband⟩, ?_⟩
  exact hmain.2.2 "chest_circumference" (50/100, 65/100) (by rfl)
    (Or.inr (by norm_num [BodyCorrection.height_ratios]))

namespace AIValidator

/- Model of measurement_modules/ai_measurement_validator.py, class
AIBodyMeasurementValidator.  Dictionary values of the raw input are either a
number or some non numeric Python object; only numbers pass the isinstance
guards of the source. -/

/-- A raw dictionary value: a number, or anything that fails the isinstance
number check of the source. -/
inductive PyVal where
  | num (q : ℚ)
  | other
deriving DecidableEq, Repr

/-- The raw input dictionary. -/
def RawData := List (String × PyVal)

/-- Dictionary lookup: first binding of the key, none when absent. -/
def dict_find (raw : RawData) (k : String) : Option PyVal :=
  (List.find? (fun p => p.1 == k) raw).map Prod.snd

/-- The body_ratios table used by the pixel conversion heuristic. -/
def body_ratios : List (String × ℚ) :=
  [("leg_length", 45/100), ("arm_length", 32/100), ("chest_width", 18/100),
   ("waist_width", 15/100), ("hip_width", 19/100), ("shoulder_width", 25/100)]

/-- The ordered candidate keys scanned for a height value. -/
def height_sources : List String := ["height", "Height", "detected_height", "height_cm"]

/-- Scan of the height source keys: the first numeric value inside 90 to 220
wins; non numeric or out of band values are skipped. -/
def height_from_keys (raw : RawData) : List String → Option ℚ
  | [] => none
  | k :: ks =>
    match dict_find raw k with
    | some (.num x) => if 90 ≤ x ∧ x ≤ 220 then some x else height_from_keys raw ks
    | _ => height_from_keys raw ks

/-- Embedding of extract_and_validate_height.  A Python truthiness test
guards the detected height, so a detected height of exactly 0 falls through
to the key scan like a missing one; the final fallback is 170. -/
def extract_and_validate_height (raw : RawData) (detected_height : Option ℚ) : ℚ :=
  match detected_height with
  | some dh =>
    if dh ≠ 0 ∧ 90 ≤ dh ∧ dh ≤ 220 then dh
    else (height_from_keys raw height_sources).getD 170
  | none => (height_from_keys raw height_sources).getD 170

/-- The eight measurements extracted by the pipeline, in mapping order. -/
inductive MeasName where
  | chest
  | waist
  | hips
  | arm_length
  | leg_length
  | shoulder_breadth
  | neck
  | head
deriving DecidableEq, Repr

/-- The candidate dictionary keys of each measurement. -/
def meas_lookup_keys : MeasName → List String
  | .chest => ["Chest Circumference", "chest_circumference", "chest_circ", "chest"]
  | .waist => ["Waist Circumference", "waist_circumference", "waist_circ", "waist"]
  | .hips => ["Hip Circumference", "hips_circumference", "hip_circ", "hips"]
  | .arm_length => ["Right Arm Length", "arm_length", "arm_length_cm"]
  | .leg_length => ["Inside Leg Height", "leg_length", "leg_length_cm"]
  | .shoulder_breadth => ["Shoulder Breadth", "shoulder_breadth", "shoulder_width"]
  | .neck => ["Neck Circumference", "neck_circumference", "neck"]
  | .head => ["Head Circumference", "head_circumference", "head"]

/-- The key of each measurement inside the extracted dictionary, used by the
pixel conversion to look up a ratio after stripping suffixes. -/
def meas_key : MeasName → String
  | .chest => "chest"
  | .waist => "waist"
  | .hips => "hips"
  | .arm_length => "arm_length"
  | .leg_length => "leg_length"
  | .shoulder_breadth => "shoulder_breadth"
  | .neck => "neck"
  | .head => "head"

/-- Embedding of estimate_from_height: anthropometric ratio estimates. -/
def estimate_from_height (m : MeasName) (height_cm : ℚ) : ℚ :=
  match m with
  | .chest => height_cm * (55/100)
  | .waist => height_cm * (42/100)
  | .hips => height_cm * (57/100)
  | .arm_length => height_cm * (32/100)
  | .leg_length => height_cm * (45/100)
  | .shoulder_breadth => height_cm * (25/100)
  | .neck => height_cm * (20/100)
  | .head => height_cm * (35/100)

/-- First numeric value among the candidate keys, exactly the break in the
extraction loop of the source. -/
def first_num (raw : RawData) : List String → Option ℚ
  | [] => none
  | k :: ks =>
    match dict_find raw k with
    | some (.num x) => some x
    | _ => first_num raw ks

/-- The extracted raw measurement dictionary: all eight keys present. -/
structure Meas8 where
  chest : ℚ
  waist : ℚ
  hips : ℚ
  arm_length : ℚ
  leg_length : ℚ
  shoulder_breadth : ℚ
  neck : ℚ
  head : ℚ
deriving DecidableEq, Repr

/-- Embedding of extract_raw_measurements: first numeric candidate key, else
the height estimate. -/
def extract_raw_measurements (raw : RawData) (height_cm : ℚ) : Meas8 :=
  let get := fun m => (first_num raw (meas_lookup_keys m)).getD (estimate_from_height m height_cm)
  ⟨get .chest, get .waist, get .hips, get .arm_length, get .leg_length,
   get .shoulder_breadth, get .neck, get .head⟩

/-- Python float division, which raises ZeroDivisionError on a zero
denominator: the one dynamic failure the typed pipeline can reach. -/
def py_div (a b : ℚ) : Except String ℚ :=
  if b = 0 then .error "ZeroDivisionError" else .ok (a / b)

/-- The suffix stripping of the pixel conversion ratio lookup. -/
def strip_suffixes (key : String) : String :=
  (key.replace "_length" "").replace "_breadth" ""

/-- Ratio looked up by the pixel conversion, default one half. -/
def conversion_ratio (key : String) : ℚ :=
  ((List.find? (fun p => p.1 == strip_suffixes key) body_ratios).map Prod.snd).getD (1/2)

/-- Embedding of one iteration of convert_to_centimeters: positive values
above 300 are treated as pixels and rescaled through the ratio heuristic,
positive values up to 300 pass through, the rest are replaced by the height
estimate. -/
def convert_one (value height_cm : ℚ) (key : String) (est : ℚ) : Except String ℚ :=
  if 0 < value then
    if 300 < value then do
      let inv ← py_div 1 (conversion_ratio key)
      let height_px := value * inv
      let scale ← py_div height_cm height_px
      return value * scale
    else .ok value
  else .ok est

/-- Embedding of convert_to_centimeters over all eight measurements. -/
def convert_to_centimeters (m : Meas8) (height_cm : ℚ) : Except String Meas8 := do
  let chest ← convert_one m.chest height_cm (meas_key .chest) (estimate_from_height .chest height_cm)
  let waist ← convert_one m.waist height_cm (meas_key .waist) (estimate_from_height .waist height_cm)
  let hips ← convert_one m.hips height_cm (meas_key .hips) (estimate_from_height .hips height_cm)
  let arm ← convert_one m.arm_length height_cm (meas_key .arm_length)
    (estimate_from_height .arm_length height_cm)
  let leg ← convert_one m.leg_length height_cm (meas_key .leg_length)
    (estimate_from_height .leg_length height_cm)
  let shoulder ← convert_one m.shoulder_breadth height_cm (meas_key .shoulder_breadth)
    (estimate_from_height .shoulder_breadth height_cm)
  let neck ← convert_one m.neck height_cm (meas_key .neck) (estimate_from_height .neck height_cm)
  let head ← convert_one m.head height_cm (meas_key .head) (estimate_from_height .head height_cm)
  return ⟨chest, waist, hips, arm, leg, shoulder, neck, head⟩

/-- Embedding of apply_anthropometric_validation: per measurement clamps,
then the two waist relationship rules.  Only the waist is rewritten by the
relationship rules; chest and hips keep their clamped values, neck and head
pass through untouched. -/
def apply_anthropometric_validation (v : Meas8) (height_cm : ℚ) : Meas8 :=
  let arm := max (height_cm * (30/100)) (min v.arm_length (height_cm * (36/100)))
  let leg := max (height_cm * (42/100)) (min v.leg_length (height_cm * (52/100)))
  let shoulder := max (height_cm * (20/100)) (min v.shoulder_breadth (height_cm * (30/100)))
  let chest := max (height_cm * (50/100)) (min v.chest (height_cm * (65/100)))
  let waist := max (height_cm * (38/100)) (min v.waist (height_cm * (50/100)))
  let hips := max (height_cm * (50/100)) (min v.hips (height_cm * (70/100)))
  let waist1 := if chest ≤ waist then chest * (85/100) else waist
  let waist2 := if hips ≤ waist1 then hips * (90/100) else waist1
  ⟨chest, waist2, hips, arm, leg, shoulder, v.neck, v.head⟩

/-- The final measurement dictionary of calculate_circumferences. -/
structure FinalMeas where
  height_cm : ℚ
  chest_circumference_cm : ℚ
  waist_circumference_cm : ℚ
  hips_circumference_cm : ℚ
  arm_length_cm : ℚ
  leg_length_cm : ℚ
  shoulder_width_cm : ℚ
deriving DecidableEq, Repr

/-- Embedding of calculate_circumferences.  The validated dictionary has no
height key, so the source always takes the default 170 here; values below
150 are treated as widths and multiplied by the circumference factors. -/
def calculate_circumferences (m : Meas8) : FinalMeas :=
  { height_cm := 170
    chest_circumference_cm := if m.chest < 150 then m.chest * (32/10) else m.chest
    waist_circumference_cm := if m.waist < 150 then m.waist * (31/10) else m.waist
    hips_circumference_cm := if m.hips < 150 then m.hips * (33/10) else m.hips
    arm_length_cm := m.arm_length
    leg_length_cm := m.leg_length
    shoulder_width_cm := m.shoulder_breadth }

/-- The size_ranges chart of the AI validator, XS to XXL. -/
def size_ranges : List BodyCorrection.SizeRow :=
  [⟨"XS", (76, 83), (60, 67), (84, 91)⟩,
   ⟨"S", (84, 92), (68, 75), (92, 99)⟩,
   ⟨"M", (93, 101), (76, 83), (100, 107)⟩,
   ⟨"L", (102, 110), (84, 91), (108, 115)⟩,
   ⟨"XL", (111, 119), (92, 99), (116, 123)⟩,
   ⟨"XXL", (120, 128), (100, 107), (124, 131)⟩]

/-- Embedding of the range distance of the AI validator, which has no open
ended 999 special case. -/
def ai_range_distance (value : ℚ) (r : ℚ × ℚ) : ℚ :=
  if r.1 ≤ value ∧ value ≤ r.2 then 0
  else if value < r.1 then r.1 - value
  else value - r.2

/-- Weighted distance of the final measurements to one chart row. -/
def ai_size_distance (fm : FinalMeas) (row : BodyCorrection.SizeRow) : ℚ :=
  ai_range_distance fm.chest_circumference_cm row.chest * (4/10)
    + ai_range_distance fm.waist_circumference_cm row.waist * (35/100)
    + ai_range_distance fm.hips_circumference_cm row.hip * (25/100)

/-- Embedding of the classify_clothing_size of the AI validator: default M,
no distance ceiling. -/
def classify_clothing_size (fm : FinalMeas) : String :=
  (RunMin.run_min (ai_size_distance fm) BodyCorrection.SizeRow.label size_ranges (none, "M")).2

/-- Embedding of calculate_confidence_score: 10 points off for each of the
five core measurements that was missing or non positive in the raw
dictionary (all eight keys are always present after extraction, so only the
non positive test can fire), 15 more for a chest change above 20 cm, clamped
into 60 to 100. -/
def calculate_confidence_score (fm : FinalMeas) (rawm : Meas8) : ℚ :=
  let p1 : ℚ := if rawm.chest ≤ 0 then 10 else 0
  let p2 : ℚ := if rawm.waist ≤ 0 then 10 else 0
  let p3 : ℚ := if rawm.hips ≤ 0 then 10 else 0
  let p4 : ℚ := if rawm.arm_length ≤ 0 then 10 else 0
  let p5 : ℚ := if rawm.leg_length ≤ 0 then 10 else 0
  let base := 100 - (p1 + p2 + p3 + p4 + p5)
  let base2 :=
    if 0 < rawm.chest ∧ 20 < |fm.chest_circumference_cm - rawm.chest| then base - 15 else base
  max 60 (min 100 base2)

/-- Round half to even at integer precision, the idealised semantics of the
Python round builtin. -/
def round_half_even (q : ℚ) : ℤ :=
  let f := ⌊q⌋
  let r := q - f
  if r < 1/2 then f
  else if 1/2 < r then f + 1
  else if f % 2 = 0 then f else f + 1

/-- Python round(x, 1). -/
def py_round1 (q : ℚ) : ℚ := (round_half_even (q * 10) : ℚ) / 10

/-- The JSON output of the validator.  The processed_at wall clock timestamp
of the source is not modelled. -/
structure Output where
  height_cm : ℚ
  chest_circumference_cm : ℚ
  waist_circumference_cm : ℚ
  hips_circumference_cm : ℚ
  arm_length_cm : ℚ
  leg_length_cm : ℚ
  shoulder_width_cm : ℚ
  clothing_size : String
  confidence_score : ℚ
  validation_method : String
deriving DecidableEq, Repr

/-- Embedding of format_final_output: every numeric field rounded to one
decimal. -/
def format_final_output (fm : FinalMeas) (size : String) (conf : ℚ) : Output :=
  { height_cm := py_round1 fm.height_cm
    chest_circumference_cm := py_round1 fm.chest_circumference_cm
    waist_circumference_cm := py_round1 fm.waist_circumference_cm
    hips_circumference_cm := py_round1 fm.hips_circumference_cm
    arm_length_cm := py_round1 fm.arm_length_cm
    leg_length_cm := py_round1 fm.leg_length_cm
    shoulder_width_cm := py_round1 fm.shoulder_width_cm
    clothing_size := size
    confidence_score := py_round1 conf
    validation_method := "ai_anthropometric" }

/-- Embedding of create_fallback_measurements. -/
def create_fallback_measurements (height : ℚ) : Output :=
  { height_cm := height
    chest_circumference_cm := height * (55/100)
    waist_circumference_cm := height * (42/100)
    hips_circumference_cm := height * (57/100)
    arm_length_cm := height * (32/100)
    leg_length_cm := height * (45/100)
    shoulder_width_cm := height * (25/100)
    clothing_size := "M"
    confidence_score := 60
    validation_method := "fallback_estimation" }

/-- The try block of validate_and_correct_measurements: the eight pipeline
steps in order. -/
def inner_pipeline (raw : RawData) (detected_height : Option ℚ) : Except String Output := do
  let height_cm := extract_and_validate_height raw detected_height
  let raw_measurements := extract_raw_measurements raw height_cm
  let cm_measurements ← convert_to_centimeters raw_measurements height_cm
  let validated := apply_anthropometric_validation cm_measurements height_cm
  let final := calculate_circumferences validated
  let size := classify_clothing_size final
  let conf := calculate_confidence_score final raw_measurements
  return format_final_output final size conf

/-- Python expression detected_height or 170: 170 when the detected height is
absent or exactly 0 (falsy). -/
def height_or_default (detected_height : Option ℚ) : ℚ :=
  match detected_height with
  | some v => if v = 0 then 170 else v
  | none => 170

/-- Embedding of validate_and_correct_measurements: the try block with the
except handler returning the fallback output. -/
def validate_and_correct_measurements (raw : RawData) (detected_height : Option ℚ) : Output :=
  match inner_pipeline raw detected_height with
  | .ok o => o
  | .error _ => create_fallback_measurements (height_or_default detected_height)

end AIValidator

namespace AIValidator

/-- Claim C3, counterexample.  At height 170 with post clamp chest 100,
waist 85 (clamped from 95) and hips 90, the waist 85 exceeds 0.90 times the
hip 81, so the rule of the claim would set hip to waist times 1.10 = 93.5;
the code does not touch the hip (nor the waist, since waist < hips): hips
stays 90 and waist stays 85. -/
theorem claim3_counterexample :
    (apply_anthropometric_validation ⟨100, 95, 90, 55, 75, 40, 36, 57⟩ 170).waist = 85 ∧
    (apply_anthropometric_validation ⟨100, 95, 90, 55, 75, 40, 36, 57⟩ 170).hips = 90 ∧
    (9/10) * (apply_anthropometric_validation ⟨100, 95, 90, 55, 75, 40, 36, 57⟩ 170).hips
      < (apply_anthropometric_validation ⟨100, 95, 90, 55, 75, 40, 36, 57⟩ 170).waist ∧
    (apply_anthropometric_validation ⟨100, 95, 90, 55, 75, 40, 36, 57⟩ 170).hips
      ≠ 85 * (11/10) := by
  norm_num [apply_anthropometric_validation]

/-- Claim C3, amended.  After the per measurement clamps the pass enforces:
if waist is greater or equal to chest then waist becomes chest times 0.85,
and if the updated waist is greater or equal to hips then waist becomes hips
times 0.90; the chest and hip values are never modified by the relationship
rules and neck and head pass through unchanged.  For positive heights the
pass establishes waist < chest and waist < hips strictly. -/
theorem claim3_amended_theorem (v : Meas8) (h : ℚ) (hh : (0:ℚ) < h) :
    (apply_anthropometric_validation v h).chest =
      max (h * (50/100)) (min v.chest (h * (65/100))) ∧
    (apply_anthropometric_validation v h).hips =
      max (h * (50/100)) (min v.hips (h * (70/100))) ∧
    (apply_anthropometric_validation v h).neck = v.neck ∧
    (apply_anthropometric_validation v h).head = v.head ∧
    (apply_anthropometric_validation v h).waist =
      (let chest := max (h * (50/100)) (min v.chest (h * (65/100)))
       let waist := max (h * (38/100)) (min v.waist (h * (50/100)))
       let hips := max (h * (50/100)) (min v.hips (h * (70/100)))
       let waist1 := if chest ≤ waist then chest * (85/100) else waist
       if hips ≤ waist1 then hips * (90/100) else waist1) ∧
    (apply_anthropometric_validation v h).waist < (apply_anthropometric_validation v h).chest ∧
    (apply_anthropometric_validation v h).waist < (apply_anthropometric_validation v h).hips := by
  have hC : h * (50/100) ≤ max (h * (50/100)) (min v.chest (h * (65/100))) := le_max_left _ _
  have hP : h * (50/100) ≤ max (h * (50/100)) (min v.hips (h * (70/100))) := le_max_left _ _
  refine ⟨rfl, rfl, rfl, rfl, rfl, ?_, ?_⟩ <;>
    · simp only [apply_anthropometric_validation]
      split_ifs with h1 h2 <;> nlinarith

/-- Claim C3, witness for the amended theorem at the counterexample input. -/
theorem claim3_witness :
    (0:ℚ) < 170 ∧
    ((apply_anthropometric_validation ⟨100, 95, 90, 55, 75, 40, 36, 57⟩ 170).waist
      < (apply_anthropometric_validation ⟨100, 95, 90, 55, 75, 40, 36, 57⟩ 170).chest ∧
     (apply_anthropometric_validation ⟨100, 95, 90, 55, 75, 40, 36, 57⟩ 170).waist
      < (apply_anthropometric_validation ⟨100, 95, 90, 55, 75, 40, 36, 57⟩ 170).hips) :=
  ⟨by norm_num,
    (claim3_amended_theorem ⟨100, 95, 90, 55, 75, 40, 36, 57⟩ 170 (by norm_num)).2.2.2.2.2.1,
    (claim3_amended_theorem ⟨100, 95, 90, 55, 75, 40, 36, 57⟩ 170 (by norm_num)).2.2.2.2.2.2⟩

lemma conversion_ratio_pos (key : String) : 0 < conversion_ratio key := by
  unfold conversion_ratio
  cases hfind : List.find? (fun p => p.1 == strip_suffixes key) body_ratios with
  | none => norm_num
  | some p =>
    have hmem : p ∈ body_ratios := List.mem_of_find?_eq_some hfind
    have hpos : 0 < p.2 := by fin_cases hmem <;> norm_num
    simpa using hpos

lemma convert_one_ok (value height_cm : ℚ) (key : String) (est : ℚ) :
    ∃ q, convert_one value height_cm key est = .ok q := by
  unfold convert_one
  split_ifs with h1 h2
  · have hr := conversion_ratio_pos key
    have hinv : py_div 1 (conversion_ratio key) = .ok (1 / conversion_ratio key) := by
      unfold py_div
      rw [if_neg (ne_of_gt hr)]
    have hpx : value * (1 / conversion_ratio key) ≠ 0 :=
      ne_of_gt (mul_pos (lt_trans (by norm_num) h2) (one_div_pos.mpr hr))
    have hdiv : py_div height_cm (value * (1 / conversion_ratio key)) =
        .ok (height_cm / (value * (1 / conversion_ratio key))) := by
      unfold py_div
      rw [if_neg hpx]
    refine ⟨value * (height_cm / (value * (1 / conversion_ratio key))), ?_⟩
    simp only [hinv, hdiv, bind, Except.bind, pure, Except.pure]
  · exact ⟨value, rfl⟩
  · exact ⟨est, rfl⟩

lemma convert_ok (m : Meas8) (h : ℚ) : ∃ m', convert_to_centimeters m h = .ok m' := by
  obtain ⟨q1, e1⟩ := convert_one_ok m.chest h (meas_key .chest) (estimate_from_height .chest h)
  obtain ⟨q2, e2⟩ := convert_one_ok m.waist h (meas_key .waist) (estimate_from_height .waist h)
  obtain ⟨q3, e3⟩ := convert_one_ok m.hips h (meas_key .hips) (estimate_from_height .hips h)
  obtain ⟨q4, e4⟩ := convert_one_ok m.arm_length h (meas_key .arm_length)
    (estimate_from_height .arm_length h)
  obtain ⟨q5, e5⟩ := convert_one_ok m.leg_length h (meas_key .leg_length)
    (estimate_from_height .leg_length h)
  obtain ⟨q6, e6⟩ := convert_one_ok m.shoulder_breadth h (meas_key .shoulder_breadth)
    (estimate_from_height .shoulder_breadth h)
  obtain ⟨q7, e7⟩ := convert_one_ok m.neck h (meas_key .neck) (estimate_from_height .neck h)
  obtain ⟨q8, e8⟩ := convert_one_ok m.head h (meas_key .head) (estimate_from_height .head h)
  refine ⟨⟨q1, q2, q3, q4, q5, q6, q7, q8⟩, ?_⟩
  simp only [convert_to_centimeters, e1, e2, e3, e4, e5, e6, e7, e8,
    bind, Except.bind, pure, Except.pure]

/-- Claim C10, confirmed.  For every raw dictionary and optional numeric
detected height the pipeline inside the try block succeeds (its only
reachable dynamic failure, division by zero in the pixel conversion, is
guarded by positive divisors), so the public function returns that result
and never raises; and the fallback the except handler would produce carries
clothing size M, confidence 60 and the detected height (170 when absent or
falsy). -/
theorem claim10_theorem (raw : RawData) (dh : Option ℚ) :
    (∃ o, inner_pipeline raw dh = .ok o ∧ validate_and_correct_measurements raw dh = o) ∧
    (create_fallback_measurements (height_or_default dh)).clothing_size = "M" ∧
    (create_fallback_measurements (height_or_default dh)).confidence_score = 60 ∧
    height_or_default none = 170 := by
  obtain ⟨m', hm'⟩ := convert_ok
    (extract_raw_measurements raw (extract_and_validate_height raw dh))
    (extract_and_validate_height raw dh)
  have ho : inner_pipeline raw dh = .ok
      (format_final_output
        (calculate_circumferences
          (apply_anthropometric_validation m' (extract_and_validate_height raw dh)))
        (classify_clothing_size
          (calculate_circumferences
            (apply_anthropometric_validation m' (extract_and_validate_height raw dh))))
        (calculate_confidence_score
          (calculate_circumferences
            (apply_anthropometric_validation m' (extract_and_validate_height raw dh)))
          (extract_raw_measurements raw (extract_and_validate_height raw dh)))) := by
    simp only [inner_pipeline, hm', bind, Except.bind, pure, Except.pure]
  refine ⟨⟨_, ho, ?_⟩, rfl, rfl, rfl⟩
  unfold validate_and_correct_measurements
  rw [ho]

end AIValidator

namespace ClothingWorker

/- Model of workers/clothing_worker.py, class
FitMatchClothingMeasurementValidator, for clothing_type top.  The four
measurements are read with a dictionary default of 0, so they are plain
rationals here. -/

/-- The four measurements inspected by the error detector, in the order
Chest Circumference, Waist Circumference, Shoulder Width, Total Length. -/
structure CMeas where
  chest : ℚ
  waist : ℚ
  shoulder : ℚ
  length : ℚ
deriving DecidableEq, Repr

/-- One row of FITMATCH_CLOTHING_STANDARDS for tops. -/
structure TopRow where
  label : String
  chest : ℚ × ℚ
  waist : ℚ × ℚ
  shoulder : ℚ × ℚ
  length : ℚ × ℚ
deriving DecidableEq, Repr

/-- The top chart of FITMATCH_CLOTHING_STANDARDS, in dict insertion order. -/
def top_standards : List TopRow :=
  [⟨"S", (84, 92), (66, 74), (35, 39), (58, 68)⟩,
   ⟨"M", (92, 100), (74, 82), (38, 42), (62, 72)⟩,
   ⟨"L", (100, 108), (82, 90), (40, 44), (66, 76)⟩,
   ⟨"XL", (108, 116), (90, 98), (42, 46), (70, 80)⟩,
   ⟨"XXL", (116, 124), (98, 106), (44, 48), (74, 84)⟩]

/-- First size whose range contains the value, the first loop of
get_size_from_measurement.  Every top row carries all four measurement
types, so the membership test of the source is always true. -/
def find_in_range (sel : TopRow → ℚ × ℚ) (v : ℚ) : List TopRow → Option String
  | [] => none
  | r :: rs => if (sel r).1 ≤ v ∧ v ≤ (sel r).2 then some r.label else find_in_range sel v rs

/-- Closest size by distance to the range center, the second loop of
get_size_from_measurement: strict improvement, first winner kept. -/
def closest_size (sel : TopRow → ℚ × ℚ) (v : ℚ) (rows : List TopRow) : Option String :=
  (RunMin.run_min (fun r => |v - ((sel r).1 + (sel r).2) / 2|)
    (fun r => some r.label) rows (none, none)).2

/-- Embedding of get_size_from_measurement. -/
def get_size_from_measurement (sel : TopRow → ℚ × ℚ) (v : ℚ) : Option String :=
  if v ≤ 0 then none
  else
    match find_in_range sel v top_standards with
    | some s => some s
    | none => closest_size sel v top_standards

/-- The detected error signatures.  Each tag stands for the error message of
the source whose substring drives the correction dispatch; the length and
shoulder range messages contain none of the dispatched substrings. -/
inductive ErrTag where
  | size_discrepancy
  | waist_chest
  | chest_range
  | length_range
  | shoulder_range
  | scaling
deriving DecidableEq, Repr

/-- Embedding of detect_measurement_errors for clothing_type top, appending
the detected tags in source order. -/
def detect_measurement_errors (m : CMeas) : List ErrTag :=
  let chest_size := get_size_from_measurement TopRow.chest m.chest
  let waist_size := get_size_from_measurement TopRow.waist m.waist
  let shoulder_size := get_size_from_measurement TopRow.shoulder m.shoulder
  let length_size := get_size_from_measurement TopRow.length m.length
  let suggestions := [chest_size, waist_size, shoulder_size, length_size].filterMap id
  let e1 : List ErrTag := if 2 < suggestions.dedup.length then [.size_discrepancy] else []
  let e2 : List ErrTag :=
    if 0 < m.chest ∧ 0 < m.waist ∧
        (m.waist / m.chest < 65/100 ∨ 95/100 < m.waist / m.chest)
    then [.waist_chest] else []
  let e3 : List ErrTag :=
    if 0 < m.chest ∧ (m.chest < 70 ∨ 140 < m.chest) then [.chest_range] else []
  let e4 : List ErrTag :=
    if 0 < m.length ∧ (m.length < 50 ∨ 100 < m.length) then [.length_range] else []
  let e5 : List ErrTag :=
    if 0 < m.shoulder ∧ (m.shoulder < 30 ∨ 60 < m.shoulder) then [.shoulder_range] else []
  let e6 : List ErrTag :=
    if 0 < m.chest ∧ 0 < m.waist ∧ 0 < m.shoulder ∧
        chest_size = waist_size ∧ waist_size = shoulder_size ∧
        ((chest_size = some "S" ∧ 80 < m.chest) ∨ (chest_size = some "XXL" ∧ m.chest < 110))
    then [.scaling] else []
  e1 ++ e2 ++ e3 ++ e4 ++ e5 ++ e6

/-- Embedding of fix_size_discrepancy: waist and shoulder are reset to the
midpoints of the chest size range. -/
def fix_size_discrepancy (m : CMeas) : CMeas :=
  if 0 < m.chest then
    match get_size_from_measurement TopRow.chest m.chest with
    | some s =>
      match top_standards.find? (fun r => r.label == s) with
      | some row =>
        { m with waist := (row.waist.1 + row.waist.2) / 2,
                 shoulder := (row.shoulder.1 + row.shoulder.2) / 2 }
      | none => m
    | none => m
  else m

/-- Embedding of fix_waist_chest_ratio. -/
def fix_waist_chest (m : CMeas) : CMeas :=
  if 0 < m.chest ∧ 0 < m.waist then
    if m.waist / m.chest < 65/100 then { m with waist := m.chest * (75/100) }
    else if 95/100 < m.waist / m.chest then { m with waist := m.chest * (85/100) }
    else m
  else m

/-- Embedding of fix_human_range_violations: chest, shoulder and length are
pulled back into fixed human ranges. -/
def fix_human_range_violations (m : CMeas) : CMeas :=
  let m1 :=
    if 0 < m.chest then
      if m.chest < 70 then { m with chest := 75 }
      else if 140 < m.chest then { m with chest := 130 }
      else m
    else m
  let m2 :=
    if 0 < m1.shoulder then
      if m1.shoulder < 30 then { m1 with shoulder := 35 }
      else if 60 < m1.shoulder then { m1 with shoulder := 55 }
      else m1
    else m1
  if 0 < m2.length then
    if m2.length < 50 then { m2 with length := 55 }
    else if 100 < m2.length then { m2 with length := 90 }
    else m2
  else m2

/-- Scaling applied only to positive entries. -/
def scale_pos (k v : ℚ) : ℚ := if 0 < v then v * k else v

/-- Embedding of fix_scaling_errors: a uniform rescale fires only for chest
strictly between 70 and 80 (factor 1.15) or strictly between 120 and 140
(factor 0.90); outside those windows nothing changes. -/
def fix_scaling_errors (m : CMeas) : CMeas :=
  if 0 < m.chest then
    if 70 < m.chest ∧ m.chest < 80 then
      ⟨scale_pos (115/100) m.chest, scale_pos (115/100) m.waist,
       scale_pos (115/100) m.shoulder, scale_pos (115/100) m.length⟩
    else if 120 < m.chest ∧ m.chest < 140 then
      ⟨scale_pos (90/100) m.chest, scale_pos (90/100) m.waist,
       scale_pos (90/100) m.shoulder, scale_pos (90/100) m.length⟩
    else m
  else m

/-- The correction matching one detected error, by the substring dispatch of
apply_error_corrections; the length and shoulder range messages match no
branch, so those errors trigger no correction. -/
def apply_fix (m : CMeas) : ErrTag → CMeas
  | .size_discrepancy => fix_size_discrepancy m
  | .waist_chest => fix_waist_chest m
  | .chest_range => fix_human_range_violations m
  | .length_range => m
  | .shoulder_range => m
  | .scaling => fix_scaling_errors m

/-- Embedding of apply_error_corrections: the fixes fold over the detected
errors in order. -/
def apply_error_corrections (m : CMeas) (errs : List ErrTag) : CMeas :=
  errs.foldl apply_fix m

/-- One reprocessing record: the attempt number with the errors detected on
that attempt (corrections_applied and validation_result of the source are
functions of these). -/
abbrev RepRecord := ℕ × List ErrTag

/-- The bounded reprocessing loop of validate_and_reprocess_measurements:
analyze, break on no errors, correct, break on validated corrections, else
record the failed attempt and go round; at most the given fuel many
attempts.  Returns the final measurements, the reprocessing history, and the
number of analyze correct attempts performed. -/
def reprocess_loop : ℕ → ℕ → CMeas → List RepRecord → CMeas × List RepRecord × ℕ
  | 0, attempts_done, m, hist => (m, hist, attempts_done)
  | fuel + 1, attempts_done, m, hist =>
    let attempt := attempts_done + 1
    let errs := detect_measurement_errors m
    if errs = [] then (m, hist, attempt)
    else
      let corrected := apply_error_corrections m errs
      if detect_measurement_errors corrected = [] then (corrected, hist, attempt)
      else reprocess_loop fuel attempt corrected (hist ++ [(attempt, errs)])

/-- Embedding of validate_and_reprocess_measurements with the configured
max_reprocessing_attempts of 3. -/
def validate_and_reprocess (m : CMeas) : CMeas × List RepRecord × ℕ :=
  reprocess_loop 3 0 m []

lemma reprocess_loop_bounds :
    ∀ (fuel attempts_done : ℕ) (m : CMeas) (hist : List RepRecord),
    (reprocess_loop fuel attempts_done m hist).2.1.length ≤ hist.length + fuel ∧
    (reprocess_loop fuel attempts_done m hist).2.2 ≤ attempts_done + fuel := by
  intro fuel
  induction fuel with
  | zero =>
    intro attempts_done m hist
    simp [reprocess_loop]
  | succ n ih =>
    intro attempts_done m hist
    simp only [reprocess_loop]
    split_ifs with h1 h2
    · constructor <;> simp
    · constructor <;> simp
    · have hrec := ih (attempts_done + 1)
        (apply_error_corrections m (detect_measurement_errors m))
        (hist ++ [(attempts_done + 1, detect_measurement_errors m)])
      rw [List.length_append] at hrec
      constructor
      · exact le_trans hrec.1 (by simp; omega)
      · exact le_trans hrec.2 (by omega)

/-- The adversarial input: chest 88, waist 70, shoulder 37 and length 63 all
vote for size S, the waist to chest ratio and all ranges are fine, but chest
88 exceeds 80, so the potential scaling error signature fires; and the
scaling fix is a no op since 88 is in neither rescale window. -/
def adversarial : CMeas := ⟨88, 70, 37, 63⟩

lemma adversarial_chest_size :
    get_size_from_measurement TopRow.chest (88:ℚ) = some "S" := by
  norm_num [get_size_from_measurement, find_in_range, top_standards]

lemma adversarial_waist_size :
    get_size_from_measurement TopRow.waist (70:ℚ) = some "S" := by
  norm_num [get_size_from_measurement, find_in_range, top_standards]

lemma adversarial_shoulder_size :
    get_size_from_measurement TopRow.shoulder (37:ℚ) = some "S" := by
  norm_num [get_size_from_measurement, find_in_range, top_standards]

lemma adversarial_length_size :
    get_size_from_measurement TopRow.length (63:ℚ) = some "S" := by
  norm_num [get_size_from_measurement, find_in_range, top_standards]

lemma adversarial_detect :
    detect_measurement_errors adversarial = [.scaling] := by
  have hdedup : (List.filterMap id
      [some "S", some "S", some "S", some "S"]).dedup.length = 1 := by decide
  simp only [detect_measurement_errors, adversarial, adversarial_chest_size,
    adversarial_waist_size, adversarial_shoulder_size, adversarial_length_size, hdedup]
  norm_num

lemma adversarial_fix :
    apply_error_corrections adversarial [.scaling] = adversarial := by
  simp only [apply_error_corrections, List.foldl, apply_fix, fix_scaling_errors, adversarial]
  norm_num

lemma adversarial_step (fuel attempts_done : ℕ) (hist : List RepRecord) :
    reprocess_loop (fuel + 1) attempts_done adversarial hist =
      reprocess_loop fuel (attempts_done + 1) adversarial
        (hist ++ [(attempts_done + 1, [.scaling])]) := by
  simp only [reprocess_loop, adversarial_detect, adversarial_fix]
  rw [if_neg (by simp), if_neg (by simp)]

/-- Claim C5, confirmed.  For every input the reprocessing controller halts
after at most 3 analyze correct attempts and its history holds at most 3
records; on the adversarial input whose scaling error signature survives
every correction pass it performs exactly 3 attempts and returns exactly one
record per failed attempt, a history of length 3. -/
theorem claim5_theorem :
    (∀ m : CMeas, (validate_and_reprocess m).2.1.length ≤ 3 ∧
      (validate_and_reprocess m).2.2 ≤ 3) ∧
    (validate_and_reprocess adversarial).2.2 = 3 ∧
    (validate_and_reprocess adversarial).2.1 =
      [(1, [.scaling]), (2, [.scaling]), (3, [.scaling])] ∧
    (validate_and_reprocess adversarial).2.1.length = 3 := by
  refine ⟨fun m => ?_, ?_, ?_, ?_⟩
  · have h := reprocess_loop_bounds 3 0 m []
    simpa [validate_and_reprocess] using h
  all_goals
    rw [validate_and_reprocess, adversarial_step, adversarial_step, adversarial_step]
    rfl

end ClothingWorker

namespace BodySegments

/- Model of measurement_modules/body_segments.py, calculate_distance.  The
silhouette raster is modelled by the per pixel channel sum consulted by the
scan (a pixel is background when the sum is below 5).  The module level
variables current_distance_up and current_distance_down persist across
calls; a single call takes their prior values as the g_up and g_down
arguments.  Pixel distances computed through the float sqrt are modelled in
the reals. -/

/-- A silhouette raster: dimensions plus the channel sum of each pixel,
indexed row then column as in the source. -/
structure Mask where
  rows : ℤ
  cols : ℤ
  pix : ℤ → ℤ → ℚ

/-- Python int(): truncation toward zero. -/
def py_int (q : ℚ) : ℤ := if 0 ≤ q then ⌊q⌋ else -⌊-q⌋

/-- The maximum ray length of every scan loop. -/
def max_ray_length : ℕ := 5000

/-- Single point scan to the right: step, stop at the image border with the
distance still 0, record the offset when a background pixel is hit,
otherwise consume one unit of the ray budget; a spent budget also leaves the
distance 0. -/
def scan_right (img : Mask) (y_mid x_mid : ℤ) : ℕ → ℤ → ℚ
  | 0, _ => 0
  | fuel + 1, cx =>
    let nx := cx + 1
    if img.cols ≤ nx then 0
    else if img.pix y_mid nx < 5 then ((|nx - x_mid| : ℤ) : ℚ)
    else scan_right img y_mid x_mid fuel nx

/-- Single point scan to the left, mirror of scan_right. -/
def scan_left (img : Mask) (y_mid x_mid : ℤ) : ℕ → ℤ → ℚ
  | 0, _ => 0
  | fuel + 1, cx =>
    let nx := cx - 1
    if nx < 0 then 0
    else if img.pix y_mid nx < 5 then ((|x_mid - nx| : ℤ) : ℚ)
    else scan_left img y_mid x_mid fuel nx

/-- The single point branch of calculate_distance: both run distances are
reset to 0 and the two axis aligned scans are summed. -/
def calculate_distance_single (img : Mask) (x_mid y_mid : ℤ) : ℚ :=
  scan_right img y_mid x_mid max_ray_length x_mid
    + scan_left img y_mid x_mid max_ray_length x_mid

/-- Perpendicular march to the right.  The loop counter of the source is
never incremented in this branch, so the 5000 step cap is inert and only the
border and background breaks stop the walk (the fuel passed by the caller
covers the whole width).  The running distance is overwritten with the
distance of each visited foreground pixel and is NOT updated when the
background is found, so on a break the value of the last foreground step, or
the inherited prior value, is returned. -/
noncomputable def perp_march_right (img : Mask) (y_mid x_mid : ℤ) (slope : ℚ) :
    ℕ → ℤ → ℝ → ℝ
  | 0, _, cur => cur
  | fuel + 1, cx, cur =>
    let nx := cx + 1
    let ny := py_int ((y_mid : ℚ) + slope * ((nx : ℚ) - (x_mid : ℚ)))
    if ny < 0 ∨ img.rows ≤ ny then cur
    else if img.cols ≤ nx then cur
    else if img.pix ny nx < 5 then cur
    else perp_march_right img y_mid x_mid slope fuel nx
      (Real.sqrt (((y_mid - ny) ^ 2 + (x_mid - nx) ^ 2 : ℤ) : ℝ))

/-- Perpendicular march to the left, mirror of perp_march_right. -/
noncomputable def perp_march_left (img : Mask) (y_mid x_mid : ℤ) (slope : ℚ) :
    ℕ → ℤ → ℝ → ℝ
  | 0, _, cur => cur
  | fuel + 1, cx, cur =>
    let nx := cx - 1
    let ny := py_int ((y_mid : ℚ) + slope * ((nx : ℚ) - (x_mid : ℚ)))
    if ny < 0 ∨ img.rows ≤ ny then cur
    else if nx < 0 then cur
    else if img.pix ny nx < 5 then cur
    else perp_march_left img y_mid x_mid slope fuel nx
      (Real.sqrt (((y_mid - ny) ^ 2 + (x_mid - nx) ^ 2 : ℤ) : ℝ))

/-- Embedding of calculate_distance on an anchor pair.  Points are (x, y)
pixel coordinates.  Single point anchors use the axis aligned scans after
resetting both distances; distinct anchors with distinct x coordinates walk
the perpendicular; distinct anchors on a vertical line run no loop at all
and return the inherited module state unchanged. -/
noncomputable def calculate_distance (img : Mask) (g_up g_down : ℝ) (p1 p2 : ℚ × ℚ) : ℝ :=
  let x_mid : ℤ := py_int ((p1.1 + p2.1) / 2)
  let y_mid : ℤ := py_int ((p1.2 + p2.2) / 2)
  if p1 = p2 then (calculate_distance_single img x_mid y_mid : ℝ)
  else if p1.1 ≠ p2.1 then
    let slope_original := (p1.2 - p2.2) / (p1.1 - p2.1)
    let slope_perp := -1 / slope_original
    let down := perp_march_right img y_mid x_mid slope_perp
      ((img.cols - x_mid).toNat + 1) x_mid g_down
    let up := perp_march_left img y_mid x_mid slope_perp
      (x_mid.toNat + 1) x_mid g_up
    up + down
  else g_up + g_down

lemma scan_right_all_fg (img : Mask) (y_mid x_mid : ℤ)
    (hfg : ∀ c : ℤ, 5 ≤ img.pix y_mid c) :
    ∀ (fuel : ℕ) (cx : ℤ), scan_right img y_mid x_mid fuel cx = 0 := by
  intro fuel
  induction fuel with
  | zero => intro cx; rfl
  | succ n ih =>
    intro cx
    simp only [scan_right]
    rw [if_neg (not_lt.mpr (hfg (cx + 1)))]
    split_ifs
    · rfl
    · exact ih (cx + 1)

lemma scan_left_all_fg (img : Mask) (y_mid x_mid : ℤ)
    (hfg : ∀ c : ℤ, 5 ≤ img.pix y_mid c) :
    ∀ (fuel : ℕ) (cx : ℤ), scan_left img y_mid x_mid fuel cx = 0 := by
  intro fuel
  induction fuel with
  | zero => intro cx; rfl
  | succ n ih =>
    intro cx
    simp only [scan_left]
    rw [if_neg (not_lt.mpr (hfg (cx - 1)))]
    split_ifs
    · rfl
    · exact ih (cx - 1)

/-- Claim C8, amended.  Every single point scan terminates, being cut off by
the 5000 step ray cap or the image border, and when no foreground to
background transition exists on the scanned row it returns the sentinel 0;
the two anchor perpendicular scan, however, does not return a sentinel when
no transition is found: it returns the accumulated distance of the last
foreground pixel marched (or the inherited module level value), as the
counterexample shows. -/
theorem claim8_amended_theorem (img : Mask) (x_mid y_mid : ℤ)
    (hfg : ∀ c : ℤ, 5 ≤ img.pix y_mid c) :
    calculate_distance_single img x_mid y_mid = 0 := by
  unfold calculate_distance_single
  rw [scan_right_all_fg img y_mid x_mid hfg, scan_left_all_fg img y_mid x_mid hfg]
  norm_num

/-- An all foreground raster, three by three, every channel sum 765. -/
def mask3 : Mask := ⟨3, 3, fun _ _ => 765⟩

/-- Claim C8, witness: on the all foreground raster the single point scan at
the center returns the sentinel 0. -/
theorem claim8_witness :
    (∀ c : ℤ, 5 ≤ mask3.pix 1 c) ∧ calculate_distance_single mask3 1 1 = 0 :=
  ⟨fun c => by norm_num [mask3], claim8_amended_theorem mask3 1 1 (fun c => by norm_num [mask3])⟩

/-- Claim C8, counterexample.  On the all foreground three by three raster
with anchors (0,0) and (2,2) no transition is ever found, yet the
perpendicular scan returns two times the square root of two, the distance
accumulated while marching to the border, not the sentinel 0. -/
theorem claim8_counterexample :
    (∀ r c : ℤ, ¬ mask3.pix r c < 5) ∧
    calculate_distance mask3 0 0 (0, 0) (2, 2) = Real.sqrt 2 + Real.sqrt 2 ∧
    calculate_distance mask3 0 0 (0, 0) (2, 2) ≠ 0 := by
  have hfg : ∀ r c : ℤ, ¬ mask3.pix r c < 5 := fun r c => by norm_num [mask3]
  have hp0 : py_int 0 = 0 := by norm_num [py_int]
  have hp1 : py_int 1 = 1 := by norm_num [py_int]
  have hp2 : py_int 2 = 2 := by norm_num [py_int]
  have hp3 : py_int 3 = 3 := by norm_num [py_int]
  have hpn1 : py_int (-1) = -1 := by norm_num [py_int]
  have hdown : perp_march_right mask3 1 1 (-1) 3 1 0 = Real.sqrt 2 := by
    rw [show (3:ℕ) = 2 + 1 from rfl]
    simp only [perp_march_right]
    norm_num [mask3, hp0, hpn1]
  have hup : perp_march_left mask3 1 1 (-1) 2 1 0 = Real.sqrt 2 := by
    rw [show (2:ℕ) = 1 + 1 from rfl]
    simp only [perp_march_left]
    norm_num [mask3, hp2, hp3]
  have hfuelr : (mask3.cols - 1).toNat + 1 = 3 := by rfl
  have hfuelr' : mask3.cols.toNat - 1 + 1 = 3 := by rfl
  have hfuell : (1:ℤ).toNat + 1 = 2 := by rfl
  have hmain : calculate_distance mask3 0 0 (0, 0) (2, 2) = Real.sqrt 2 + Real.sqrt 2 := by
    simp only [calculate_distance]
    rw [if_neg (by norm_num [Prod.ext_iff]), if_pos (by norm_num)]
    norm_num [hp1, hfuelr, hfuelr', hfuell, hdown, hup]
  refine ⟨hfg, hmain, ?_⟩
  rw [hmain]
  have h2 : (0:ℝ) < Real.sqrt 2 := Real.sqrt_pos.mpr (by norm_num)
  positivity

end BodySegments
